import Mathlib

/-!
# Proyecto Alquimista: gameplay core of `js/main.js`

A shallow embedding of the simulation core of `main.js` (movement with axis
sliding, gravity and ground snap, obstacle collision, spawn-overlap
resolution, pickup and drop) together with theorems about it.

Modelling conventions

* JavaScript numbers are rationals; rounding is not modelled.  `Math.PI` is the
  exact rational value of the IEEE double the engine uses.
* `Math.sqrt`, `Math.sin`, `Math.cos` and `Math.atan2` are primitives of the
  host, collected in `JSMath` and passed explicitly.
* `Math.random()` draws are explicit arguments of `tryDrop`.
* A reference to a collectible (`state.carrying`, the result of
  `nearestCollectible`) is its index in `refs.collectibles`; `null` is `none`.
* The scene graph is reduced to what the code reads: a node is attached either
  to the scene or to the hand anchor (a child of the player group, which is
  never rotated or scaled), and carries a local position.
* Rendering, audio playback, camera placement and DOM updates are left out,
  except the text of the last hint and the `walkingSfx` flag.
-/

namespace Alquimista

/-! ## Host primitives -/

/-- Host mathematical primitives used by the program. -/
structure JSMath where
  sqrt : ℚ → ℚ
  sin : ℚ → ℚ
  cos : ℚ → ℚ
  atan2 : ℚ → ℚ → ℚ

/-- The double nearest to pi, which is the value of `Math.PI`. -/
def MathPI : ℚ := 884279719003555 / 281474976710656

/-- Truncation toward zero of a rational. -/
def truncQ (q : ℚ) : ℤ := if 0 ≤ q then ⌊q⌋ else ⌈q⌉

/-- JavaScript `a % b` on numbers: the remainder takes the sign of the dividend. -/
def jsRem (a b : ℚ) : ℚ := a - b * (truncQ (a / b) : ℚ)

/-! ## Vectors and boxes (three.js `Vector3`, `Box3`) -/

structure Vector3 where
  x : ℚ
  y : ℚ
  z : ℚ
deriving DecidableEq

namespace Vector3

def zero : Vector3 := ⟨0, 0, 0⟩

def add (a b : Vector3) : Vector3 := ⟨a.x + b.x, a.y + b.y, a.z + b.z⟩

def sub (a b : Vector3) : Vector3 := ⟨a.x - b.x, a.y - b.y, a.z - b.z⟩

def negate (a : Vector3) : Vector3 := ⟨-a.x, -a.y, -a.z⟩

def multiplyScalar (a : Vector3) (s : ℚ) : Vector3 := ⟨a.x * s, a.y * s, a.z * s⟩

def divideScalar (a : Vector3) (s : ℚ) : Vector3 := a.multiplyScalar (1 / s)

def lengthSq (a : Vector3) : ℚ := a.x * a.x + a.y * a.y + a.z * a.z

def length (M : JSMath) (a : Vector3) : ℚ := M.sqrt (a.x * a.x + a.y * a.y + a.z * a.z)

/-- The method `normalize`: `divideScalar(length() || 1)`. -/
def normalize (M : JSMath) (a : Vector3) : Vector3 :=
  a.divideScalar (if a.length M = 0 then 1 else a.length M)

def crossVectors (a b : Vector3) : Vector3 :=
  ⟨a.y * b.z - a.z * b.y, a.z * b.x - a.x * b.z, a.x * b.y - a.y * b.x⟩

def distanceToSquared (a b : Vector3) : ℚ :=
  (a.x - b.x) * (a.x - b.x) + (a.y - b.y) * (a.y - b.y) + (a.z - b.z) * (a.z - b.z)

def distanceTo (M : JSMath) (a b : Vector3) : ℚ := M.sqrt (a.distanceToSquared b)

end Vector3

structure Box3 where
  min : Vector3
  max : Vector3
deriving DecidableEq

/-! ## Game data -/

/-- The keys read by `movePlayer` out of `state.keys`. -/
structure Keys where
  KeyW : Bool
  KeyS : Bool
  KeyA : Bool
  KeyD : Bool
  ArrowUp : Bool
  ArrowDown : Bool
  ArrowLeft : Bool
  ArrowRight : Bool
  ShiftLeft : Bool
  ShiftRight : Bool

/-- The two values `isCollectible` can give a collectible. -/
inductive Kind where
  | cristal
  | seta
deriving DecidableEq

def Kind.name : Kind → String
  | .cristal => "cristal"
  | .seta => "seta"

/-- Where a node hangs in the scene graph. -/
inductive Parent where
  | scene
  | handAnchor
deriving DecidableEq

/-- A scene node: its parent and its position relative to that parent. -/
structure Object3D where
  parent : Parent
  position : Vector3
deriving DecidableEq

/-- An entry of `refs.collectibles`. -/
structure Collectible where
  obj : Object3D
  kind : Kind
  taken : Bool
  deposited : Bool
deriving DecidableEq

/-- An entry of `refs.obstacles`; only its box is ever read. -/
structure Obstacle where
  box : Box3
deriving DecidableEq

/-- The node `refs.caldero`: world position and world bounding box. -/
structure Caldero where
  worldPosition : Vector3
  box : Box3
deriving DecidableEq

structure Collected where
  cristales : Nat
  setas : Nat
deriving DecidableEq

/-- The object `state` (camera fields left out). -/
structure State where
  loaded : Bool
  keys : Keys
  speed : ℚ
  runMultiplier : ℚ
  carrying : Option Nat
  collected : Collected
  turnSmooth : ℚ
  facingYaw : ℚ
  velocityY : ℚ
  gravity : ℚ
  playerRadius : ℚ
  groundSnapMax : ℚ
  walkingSfx : Bool

/-- The object `refs`.  `piso`, when present, is the ground mesh seen through
the downward ray cast: from a ray origin to the height of the first hit. -/
structure Refs where
  piso : Option (Vector3 → Option ℚ)
  caldero : Option Caldero
  alquimistaRotationY : ℚ
  playerPosition : Vector3
  collectibles : List Collectible
  obstacles : List Obstacle

/-- Module-level mutable data of `main.js`. -/
structure Game where
  state : State
  refs : Refs
  hintText : String

/-- What a frame reads from outside the core. -/
structure FrameInput where
  cameraDirection : Vector3
  sfxCaminarBuffer : Bool

/-- Position of the hand anchor inside the player group. -/
def handAnchorOffset : Vector3 := ⟨0.25, 1.4, 0.35⟩

/-- World position of the hand anchor. -/
def handAnchorWorld (g : Game) : Vector3 := g.refs.playerPosition.add handAnchorOffset

/-- The helper `worldPos` applied to a node. -/
def worldPos (g : Game) (o : Object3D) : Vector3 :=
  match o.parent with
  | .scene => o.position
  | .handAnchor => (handAnchorWorld g).add o.position

/-- The call `parent.attach(o)`: reparent and keep the world position. -/
def attach (g : Game) (newParent : Parent) (o : Object3D) : Object3D :=
  match newParent with
  | .scene => ⟨.scene, worldPos g o⟩
  | .handAnchor => ⟨.handAnchor, (worldPos g o).sub (handAnchorWorld g)⟩

/-- In-place update of the collectible a reference points to. -/
def updateAt (l : List Collectible) (i : Nat) (f : Collectible → Collectible) :
    List Collectible :=
  match l, i with
  | [], _ => []
  | c :: cs, 0 => f c :: cs
  | c :: cs, i + 1 => c :: updateAt cs i f

/-! ## Collision -/

/-- The test inside the loops of `collides` and `resolveSpawnOverlap`. -/
def insideInflated (r : ℚ) (ob : Obstacle) (p : Vector3) : Bool :=
  decide (p.x ≥ ob.box.min.x - r) && decide (p.x ≤ ob.box.max.x + r) &&
    decide (p.z ≥ ob.box.min.z - r) && decide (p.z ≤ ob.box.max.z + r)

/-- The function `collides` over given obstacles and radius. -/
def collidesWith (obstacles : List Obstacle) (r : ℚ) (testPos : Vector3) : Bool :=
  match obstacles with
  | [] => false
  | ob :: rest => if insideInflated r ob testPos then true else collidesWith rest r testPos

def collides (g : Game) (testPos : Vector3) : Bool :=
  collidesWith g.refs.obstacles g.state.playerRadius testPos

/-- The else branch of `movePlayer` taken when the candidate collides: try the
X displacement, then the Z displacement from the position left by the X step. -/
def slideFallback (obstacles : List Obstacle) (r : ℚ) (p dir : Vector3) : Vector3 :=
  let tryX : Vector3 := ⟨p.x + dir.x, p.y, p.z⟩
  let p1 := if !collidesWith obstacles r tryX then tryX else p
  let tryZ : Vector3 := ⟨p1.x, p1.y, p1.z + dir.z⟩
  if !collidesWith obstacles r tryZ then tryZ else p1

/-- Position update of `movePlayer` for a displacement `dir`. -/
def resolveMove (obstacles : List Obstacle) (r : ℚ) (p dir : Vector3) : Vector3 :=
  let nextPos := p.add dir
  if !collidesWith obstacles r nextPos then nextPos else slideFallback obstacles r p dir

/-! ## Facing -/

/-- The value `angleDelta` of `movePlayer`. -/
def angleDelta (targetYaw facingYaw : ℚ) : ℚ :=
  jsRem (targetYaw - facingYaw + MathPI) (2 * MathPI) - MathPI

/-- The facing yaw after `state.facingYaw += angleDelta * Math.min(1, turnSmooth * dt)`. -/
def turnToward (turnSmooth dt targetYaw facingYaw : ℚ) : ℚ :=
  facingYaw + angleDelta targetYaw facingYaw * min 1 (turnSmooth * dt)

/-! ## Gravity and ground -/

def applyGravityAndGround (dt : ℚ) (g : Game) : Game :=
  match g.refs.piso with
  | none => g
  | some ray =>
    let p := g.refs.playerPosition
    let fall : Game :=
      let vy := g.state.velocityY + g.state.gravity * dt
      { g with
        state := { g.state with velocityY := vy }
        refs := { g.refs with playerPosition := ⟨p.x, p.y + vy * dt, p.z⟩ } }
    match ray ⟨p.x, p.y + 1, p.z⟩ with
    | some hitY =>
      if p.y - hitY ≤ g.state.groundSnapMax then
        { g with
          state := { g.state with velocityY := 0 }
          refs := { g.refs with playerPosition := ⟨p.x, hitY, p.z⟩ } }
      else fall
    | none => fall

/-! ## Movement -/

/-- The vector `dir` of `movePlayer` before normalisation. -/
def desiredDirection (M : JSMath) (k : Keys) (cameraDirection : Vector3) (yaw : ℚ) :
    Vector3 :=
  let camForward := Vector3.normalize M ⟨cameraDirection.x, 0, cameraDirection.z⟩
  let camRight := (Vector3.crossVectors camForward ⟨0, 1, 0⟩).negate
  let chrForward : Vector3 := ⟨M.sin yaw, 0, M.cos yaw⟩
  let chrRight := Vector3.crossVectors chrForward ⟨0, 1, 0⟩
  let d0 := Vector3.zero
  let d1 := if k.KeyW then d0.add camForward else d0
  let d2 := if k.KeyS then d1.sub camForward else d1
  let d3 := if k.KeyA then d2.sub camRight else d2
  let d4 := if k.KeyD then d3.add camRight else d3
  let d5 := if k.ArrowUp then d4.add chrForward else d4
  let d6 := if k.ArrowDown then d5.sub chrForward else d5
  let d7 := if k.ArrowLeft then d6.sub chrRight else d6
  if k.ArrowRight then d7.add chrRight else d7

/-- The function `movePlayer`; the final update of `controls.target` belongs
to the camera rig and is left out. -/
def movePlayer (M : JSMath) (inp : FrameInput) (dt : ℚ) (g : Game) : Game :=
  if !g.state.loaded then g else
  let k := g.state.keys
  let speed := g.state.speed * (if k.ShiftLeft || k.ShiftRight then g.state.runMultiplier else 1)
  let dir0 := desiredDirection M k inp.cameraDirection g.state.facingYaw
  let movingWithArrows := k.ArrowUp || k.ArrowDown || k.ArrowLeft || k.ArrowRight
  let g1 : Game :=
    if dir0.lengthSq > 0 then
      let dir := (dir0.normalize M).multiplyScalar (speed * dt)
      let pos := resolveMove g.refs.obstacles g.state.playerRadius g.refs.playerPosition dir
      let targetYaw := M.atan2 dir.x dir.z
      let yaw := turnToward g.state.turnSmooth dt targetYaw g.state.facingYaw
      { g with
        state := { g.state with
          facingYaw := yaw
          walkingSfx :=
            if movingWithArrows && inp.sfxCaminarBuffer && !g.state.walkingSfx then true
            else g.state.walkingSfx }
        refs := { g.refs with playerPosition := pos, alquimistaRotationY := yaw } }
    else
      { g with state := { g.state with walkingSfx := false } }
  applyGravityAndGround dt g1

/-! ## Spawn overlap -/

/-- One iteration of the loop of `resolveSpawnOverlap`: `pos` is the clone taken
before the loop, `cur` the live player position. -/
def pushOut (M : JSMath) (r : ℚ) (pos : Vector3) (cur : Vector3) (ob : Obstacle) : Vector3 :=
  if insideInflated r ob pos then
    let center : Vector3 :=
      ⟨(ob.box.min.x + ob.box.max.x) * 0.5, 0, (ob.box.min.z + ob.box.max.z) * 0.5⟩
    let dir0 := pos.sub center
    let dir1 := if dir0.lengthSq = 0 then (⟨1, 0, 0⟩ : Vector3) else dir0
    cur.add ((dir1.normalize M).multiplyScalar (r + 0.3))
  else cur

def resolveSpawnLoop (M : JSMath) (r : ℚ) (pos : Vector3) :
    List Obstacle → Vector3 → Vector3
  | [], cur => cur
  | ob :: rest, cur => resolveSpawnLoop M r pos rest (pushOut M r pos cur ob)

def resolveSpawnOverlap (M : JSMath) (g : Game) : Game :=
  if g.refs.obstacles.length = 0 then g else
  let pos := g.refs.playerPosition
  { g with refs := { g.refs with
      playerPosition := resolveSpawnLoop M g.state.playerRadius pos g.refs.obstacles pos } }

/-! ## Pickup and drop -/

/-- The comparison `d < bestD`, where `none` stands for `Infinity`. -/
def belowBest (d : ℚ) (bestD : Option ℚ) : Bool :=
  match bestD with
  | none => true
  | some b => decide (d < b)

/-- The loop of `nearestCollectible`; `i` is the index of the head of the list. -/
def nearestLoop (M : JSMath) (g : Game) (maxDist : ℚ) :
    List Collectible → Nat → Option Nat → Option ℚ → Option Nat
  | [], _, best, _ => best
  | c :: cs, i, best, bestD =>
    if c.taken || c.deposited then nearestLoop M g maxDist cs (i + 1) best bestD
    else
      let d := (worldPos g c.obj).distanceTo M g.refs.playerPosition
      if belowBest d bestD && decide (d ≤ maxDist) then
        nearestLoop M g maxDist cs (i + 1) (some i) (some d)
      else nearestLoop M g maxDist cs (i + 1) best bestD

def nearestCollectible (M : JSMath) (g : Game) (maxDist : ℚ) : Option Nat :=
  if g.refs.collectibles.length = 0 then none
  else nearestLoop M g maxDist g.refs.collectibles 0 none none

/-- The function `tryPickup`.  The reference returned by `nearestCollectible`
always points into the registry; the lookup for the hint is written with `?`
only because an index, unlike a reference, could be out of range. -/
def tryPickup (M : JSMath) (g : Game) : Game :=
  if !g.state.loaded || g.state.carrying.isSome then g else
  match nearestCollectible M g 1.5 with
  | none => { g with hintText := "No hay objetos cercanos" }
  | some i =>
    { g with
      state := { g.state with carrying := some i }
      refs := { g.refs with
        collectibles := updateAt g.refs.collectibles i
          (fun c => { c with obj := attach g .handAnchor c.obj, taken := true }) }
      hintText := "Recogido " ++
        (match g.refs.collectibles[i]? with
         | some c => c.kind.name
         | none => "") }

/-- Counter update of `tryDrop` for the kind of the dropped collectible. -/
def countKind (k : Kind) (n : Collected) : Collected :=
  let n1 : Collected := if k = .cristal then { n with cristales := n.cristales + 1 } else n
  if k = .seta then { n1 with setas := n1.setas + 1 } else n1

/-- The function `tryDrop`; `rand1` and `rand2` are the two `Math.random()`
draws, in the order the code makes them.  `caldero.box` stands for
`tmpBox3.setFromObject(refs.caldero)`. -/
def tryDrop (M : JSMath) (rand1 rand2 : ℚ) (g : Game) : Game :=
  match g.state.loaded, g.state.carrying with
  | false, _ => { g with hintText := "No llevas nada" }
  | true, none => { g with hintText := "No llevas nada" }
  | true, some i =>
    match g.refs.caldero with
    | none => { g with hintText := "No hay caldero en la escena" }
    | some caldero =>
      let pPlayer := g.refs.playerPosition
      let pCaldero := caldero.worldPosition
      let d := pPlayer.distanceTo M pCaldero
      if d > 2.2 then { g with hintText := "Acércate al caldero para soltar" } else
      let dropX := pCaldero.x + (rand1 - 0.5) * 0.4
      let dropZ := pCaldero.z + (rand2 - 0.5) * 0.4
      let dropY := caldero.box.max.y + 0.15
      let kind := (g.refs.collectibles[i]?).map (fun c => c.kind)
      { g with
        state := { g.state with
          carrying := none
          collected :=
            match kind with
            | some k => countKind k g.state.collected
            | none => g.state.collected }
        refs := { g.refs with
          collectibles := updateAt g.refs.collectibles i
            (fun c => { c with
              obj := { attach g .scene c.obj with position := ⟨dropX, dropY, dropZ⟩ }
              deposited := true }) }
        hintText := "Depositado " ++
          (match kind with
           | some k => k.name
           | none => "") ++ " en el caldero" }

/-- A key press handled by the interaction controller, with the position the
player stands at and, for a drop, the two random draws. -/
inductive Action where
  | pickup (at_ : Vector3)
  | drop (at_ : Vector3) (rand1 rand2 : ℚ)

def placePlayer (p : Vector3) (g : Game) : Game :=
  { g with refs := { g.refs with playerPosition := p } }

def step (M : JSMath) (g : Game) : Action → Game
  | .pickup p => tryPickup M (placePlayer p g)
  | .drop p r1 r2 => tryDrop M r1 r2 (placePlayer p g)

def run (M : JSMath) (g : Game) (acts : List Action) : Game :=
  acts.foldl (step M) g

/-! ## Concrete data used in examples -/

/-- An obstacle whose footprint is the square from -1 to 1 on X and Z. -/
def squareObstacle : Obstacle := ⟨⟨⟨-1, 0, -1⟩, ⟨1, 2, 1⟩⟩⟩

/-- The literal the module-level `state` object starts from. -/
def initialState : State :=
  { loaded := false
    keys := ⟨false, false, false, false, false, false, false, false, false, false⟩
    speed := 3.0
    runMultiplier := 1.7
    carrying := none
    collected := ⟨0, 0⟩
    turnSmooth := 3
    facingYaw := 0
    velocityY := 0
    gravity := -9.8
    playerRadius := 0.25
    groundSnapMax := 0.3
    walkingSfx := false }

/-- A rational stand-in for the host primitives, used to evaluate the program
on concrete inputs: square roots are exact on squares of rationals, the
trigonometric functions are low-order approximations. -/
def sampleMath : JSMath :=
  { sqrt := fun q => (Nat.sqrt (q.num.toNat * q.den) : ℚ) / q.den
    sin := fun a => a - a ^ 3 / 6
    cos := fun a => 1 - a ^ 2 / 2
    atan2 := fun y x =>
      if x = 0 ∧ y = 0 then 0
      else if |y| ≤ x then y / x
      else if |x| ≤ y then MathPI / 2 - x / y
      else if |x| ≤ -y then -(MathPI / 2) - x / y
      else if 0 ≤ y then MathPI + y / x
      else -MathPI + y / x }

/-- The scene right before `resolveSpawnOverlap` runs: the player at `spawn`,
the square obstacle, no collectibles. -/
def spawnScene (spawn : Vector3) : Game :=
  { state := initialState
    refs :=
      { piso := none
        caldero := none
        alquimistaRotationY := 0
        playerPosition := spawn
        collectibles := []
        obstacles := [squareObstacle] }
    hintText := "" }

/-- The cauldron of `sampleScene`. -/
def sampleCaldero : Caldero :=
  ⟨⟨0, 0, 0⟩, ⟨⟨-21 / 20, -1 / 20, -21 / 20⟩, ⟨21 / 20, 41 / 20, 21 / 20⟩⟩⟩

/-- A loaded scene: flat ground at height 0, the cauldron at the origin (its
obstacle box is the square obstacle), a crystal and a mushroom, and the player
standing at distance 2 from the cauldron and 1 from the crystal. -/
def sampleScene : Game :=
  { state := { initialState with loaded := true }
    refs :=
      { piso := some (fun _ => some 0)
        caldero := some sampleCaldero
        alquimistaRotationY := 0
        playerPosition := ⟨2, 0, 0⟩
        collectibles :=
          [⟨⟨.scene, ⟨3, 0, 0⟩⟩, .cristal, false, false⟩,
           ⟨⟨.scene, ⟨2, 0, 4⟩⟩, .seta, false, false⟩]
        obstacles := [squareObstacle] }
    hintText := "" }

/-- No movement key held. -/
def Keys.idle (k : Keys) : Prop :=
  k.KeyW = false ∧ k.KeyS = false ∧ k.KeyA = false ∧ k.KeyD = false ∧
    k.ArrowUp = false ∧ k.ArrowDown = false ∧ k.ArrowLeft = false ∧ k.ArrowRight = false

/-- The distance `nearestCollectible` computes for a collectible. -/
def playerDistance (M : JSMath) (g : Game) (c : Collectible) : ℚ :=
  (worldPos g c.obj).distanceTo M g.refs.playerPosition

/-- What the result of the nearest-collectible search over `l` must satisfy:
`none` when no collectible that is neither taken nor deposited is within
`maxDist`; otherwise an index of such a collectible, at least as near as
every other one that is neither taken nor deposited, and strictly nearer than
those before it in the list. -/
def IsNearest (M : JSMath) (g : Game) (maxDist : ℚ) (l : List Collectible) :
    Option Nat → Prop
  | none => ∀ (j : Nat) (c : Collectible), l[j]? = some c → c.taken = false →
      c.deposited = false → maxDist < playerDistance M g c
  | some i => ∃ c : Collectible, l[i]? = some c ∧ c.taken = false ∧ c.deposited = false ∧
      playerDistance M g c ≤ maxDist ∧
      (∀ (j : Nat) (c' : Collectible), l[j]? = some c' → c'.taken = false →
        c'.deposited = false → playerDistance M g c ≤ playerDistance M g c') ∧
      (∀ (j : Nat) (c' : Collectible), j < i → l[j]? = some c' → c'.taken = false →
        c'.deposited = false → playerDistance M g c < playerDistance M g c')

/-- The crystal of `sampleScene` once picked up: attached to the hand anchor. -/
def carriedCrystal : Collectible :=
  ⟨⟨.handAnchor, ⟨3 / 4, -7 / 5, -7 / 20⟩⟩, .cristal, true, false⟩

/-- The scene `sampleScene` with the crystal in the hand of the player. -/
def carryingScene : Game :=
  { sampleScene with
    state := { sampleScene.state with carrying := some 0 }
    refs := { sampleScene.refs with
      collectibles := [carriedCrystal, ⟨⟨.scene, ⟨2, 0, 4⟩⟩, .seta, false, false⟩] } }

/-- The flag invariant of the interaction controller: a deposited collectible
is taken, the collectibles that are taken and not deposited are exactly the
one `state.carrying` refers to, and `state.carrying` refers to a collectible of
the registry. -/
def FlagsConsistent (g : Game) : Prop :=
  (∀ (j : Nat) (c : Collectible), g.refs.collectibles[j]? = some c →
      (c.deposited = true → c.taken = true) ∧
      ((c.taken = true ∧ c.deposited = false) ↔ g.state.carrying = some j)) ∧
    (∀ i : Nat, g.state.carrying = some i →
      ∃ c : Collectible, g.refs.collectibles[i]? = some c)

/-- The scene `sampleScene` while the footstep loop is marked as playing. -/
def walkingScene : Game :=
  { sampleScene with state := { sampleScene.state with walkingSfx := true } }

/-! ## Collision and sliding -/

theorem collidesWith_congr (obstacles : List Obstacle) (r : ℚ) (a b : Vector3)
    (hx : a.x = b.x) (hz : a.z = b.z) :
    collidesWith obstacles r a = collidesWith obstacles r b := by
  induction obstacles with
  | nil => rfl
  | cons ob rest ih => simp only [collidesWith, insideInflated, hx, hz, ih]

/-- C1: when the candidate `p + d` collides, the position left by the
axis-sliding fallback of `movePlayer` is either `p` itself or a position that
does not collide; `resolveMove` takes that fallback in this case. -/
theorem slideFallback_never_collides (obstacles : List Obstacle) (r : ℚ) (p d : Vector3)
    (hc : collidesWith obstacles r (p.add d) = true) :
    resolveMove obstacles r p d = slideFallback obstacles r p d ∧
      (slideFallback obstacles r p d = p ∨
        collidesWith obstacles r (slideFallback obstacles r p d) = false) := by
  refine ⟨by simp [resolveMove, hc], ?_⟩
  unfold slideFallback
  by_cases hX : collidesWith obstacles r ⟨p.x + d.x, p.y, p.z⟩ = true
  · by_cases hZ : collidesWith obstacles r ⟨p.x, p.y, p.z + d.z⟩ = true
    · left
      simp [hX, hZ]
    · right
      have hZ' : collidesWith obstacles r ⟨p.x, p.y, p.z + d.z⟩ = false := by simpa using hZ
      simp [hX, hZ']
  · right
    have hX' : collidesWith obstacles r ⟨p.x + d.x, p.y, p.z⟩ = false := by simpa using hX
    have hN : collidesWith obstacles r ⟨p.x + d.x, p.y, p.z + d.z⟩ = true := by
      rw [← hc]
      exact collidesWith_congr obstacles r _ _ rfl rfl
    simp [hX', hN]

theorem slideFallback_never_collides_witness :
    resolveMove [squareObstacle] (1 / 4) ⟨-13 / 10, 0, -13 / 10⟩ ⟨1 / 10, 0, 1 / 10⟩ =
        slideFallback [squareObstacle] (1 / 4) ⟨-13 / 10, 0, -13 / 10⟩ ⟨1 / 10, 0, 1 / 10⟩ ∧
      (slideFallback [squareObstacle] (1 / 4) ⟨-13 / 10, 0, -13 / 10⟩ ⟨1 / 10, 0, 1 / 10⟩ =
          ⟨-13 / 10, 0, -13 / 10⟩ ∨
        collidesWith [squareObstacle] (1 / 4)
          (slideFallback [squareObstacle] (1 / 4) ⟨-13 / 10, 0, -13 / 10⟩ ⟨1 / 10, 0, 1 / 10⟩) =
          false) :=
  slideFallback_never_collides [squareObstacle] (1 / 4) ⟨-13 / 10, 0, -13 / 10⟩
    ⟨1 / 10, 0, 1 / 10⟩
    (by norm_num [collidesWith, insideInflated, squareObstacle, Vector3.add])

/-- C9 (as stated, refuted): approaching the corner of the square obstacle
diagonally, the candidate collides while both single-axis candidates are free;
the X displacement is taken and the Z displacement is not. -/
theorem slideFallback_axes_not_independent :
    collidesWith [squareObstacle] (1 / 4)
        ((⟨-13 / 10, 0, -13 / 10⟩ : Vector3).add ⟨1 / 10, 0, 1 / 10⟩) = true ∧
      collidesWith [squareObstacle] (1 / 4) ⟨-13 / 10 + 1 / 10, 0, -13 / 10⟩ = false ∧
      collidesWith [squareObstacle] (1 / 4) ⟨-13 / 10, 0, -13 / 10 + 1 / 10⟩ = false ∧
      (slideFallback [squareObstacle] (1 / 4) ⟨-13 / 10, 0, -13 / 10⟩ ⟨1 / 10, 0, 1 / 10⟩).z ≠
        -13 / 10 + 1 / 10 := by
  norm_num [slideFallback, collidesWith, insideInflated, squareObstacle, Vector3.add]

/-- C9 (amended): in the fallback branch the X-only candidate is accepted
whenever it is free, and then the Z displacement is not applied; the Z
displacement is applied exactly when the X-only candidate collides and the
Z-only candidate is free; when both collide the position stays `p`. -/
theorem slideFallback_sequential (obstacles : List Obstacle) (r : ℚ) (p d : Vector3)
    (hc : collidesWith obstacles r (p.add d) = true) :
    (collidesWith obstacles r ⟨p.x + d.x, p.y, p.z⟩ = false →
        slideFallback obstacles r p d = ⟨p.x + d.x, p.y, p.z⟩) ∧
      (collidesWith obstacles r ⟨p.x + d.x, p.y, p.z⟩ = true →
        collidesWith obstacles r ⟨p.x, p.y, p.z + d.z⟩ = false →
        slideFallback obstacles r p d = ⟨p.x, p.y, p.z + d.z⟩) ∧
      (collidesWith obstacles r ⟨p.x + d.x, p.y, p.z⟩ = true →
        collidesWith obstacles r ⟨p.x, p.y, p.z + d.z⟩ = true →
        slideFallback obstacles r p d = p) := by
  have hN : collidesWith obstacles r ⟨p.x + d.x, p.y, p.z + d.z⟩ = true := by
    rw [← hc]
    exact collidesWith_congr obstacles r _ _ rfl rfl
  refine ⟨fun hX => ?_, fun hX hZ => ?_, fun hX hZ => ?_⟩
  · simp [slideFallback, hX, hN]
  · simp [slideFallback, hX, hZ]
  · simp [slideFallback, hX, hZ]

theorem slideFallback_sequential_witness :
    (collidesWith [squareObstacle] (1 / 4) ⟨-13 / 10 + 1 / 10, 0, -13 / 10⟩ = false →
        slideFallback [squareObstacle] (1 / 4) ⟨-13 / 10, 0, -13 / 10⟩ ⟨1 / 10, 0, 1 / 10⟩ =
          ⟨-13 / 10 + 1 / 10, 0, -13 / 10⟩) ∧
      (collidesWith [squareObstacle] (1 / 4) ⟨-13 / 10 + 1 / 10, 0, -13 / 10⟩ = true →
        collidesWith [squareObstacle] (1 / 4) ⟨-13 / 10, 0, -13 / 10 + 1 / 10⟩ = false →
        slideFallback [squareObstacle] (1 / 4) ⟨-13 / 10, 0, -13 / 10⟩ ⟨1 / 10, 0, 1 / 10⟩ =
          ⟨-13 / 10, 0, -13 / 10 + 1 / 10⟩) ∧
      (collidesWith [squareObstacle] (1 / 4) ⟨-13 / 10 + 1 / 10, 0, -13 / 10⟩ = true →
        collidesWith [squareObstacle] (1 / 4) ⟨-13 / 10, 0, -13 / 10 + 1 / 10⟩ = true →
        slideFallback [squareObstacle] (1 / 4) ⟨-13 / 10, 0, -13 / 10⟩ ⟨1 / 10, 0, 1 / 10⟩ =
          ⟨-13 / 10, 0, -13 / 10⟩) :=
  slideFallback_sequential [squareObstacle] (1 / 4) ⟨-13 / 10, 0, -13 / 10⟩
    ⟨1 / 10, 0, 1 / 10⟩
    (by norm_num [collidesWith, insideInflated, squareObstacle, Vector3.add])

/-! ## Facing: the remainder and the angle step -/

theorem MathPI_pos : 0 < MathPI := by norm_num [MathPI]

theorem jsRem_of_nonneg_of_lt (a b : ℚ) (ha : 0 ≤ a) (hab : a < b) : jsRem a b = a := by
  have hb : 0 < b := lt_of_le_of_lt ha hab
  have h0 : 0 ≤ a / b := div_nonneg ha hb.le
  have h1 : a / b < 1 := (div_lt_one hb).2 hab
  have hf : ⌊a / b⌋ = 0 := Int.floor_eq_zero_iff.2 ⟨h0, h1⟩
  simp [jsRem, truncQ, h0, hf]

theorem jsRem_of_neg_of_lt (a b : ℚ) (ha : a < 0) (hab : -b < a) : jsRem a b = a := by
  have hb : 0 < b := by linarith
  have h0 : a / b < 0 := div_neg_of_neg_of_pos ha hb
  have h1 : -1 < a / b := by
    rw [lt_div_iff₀ hb]
    linarith
  have hc : ⌈a / b⌉ = 0 := Int.ceil_eq_zero_iff.2 ⟨h1, h0.le⟩
  simp [jsRem, truncQ, not_le.2 h0, hc]

theorem jsRem_of_ge_of_lt (a b : ℚ) (hb : 0 < b) (ha : b ≤ a) (hab : a < 2 * b) :
    jsRem a b = a - b := by
  have h1 : 1 ≤ a / b := (one_le_div hb).2 ha
  have h2 : a / b < 2 := (div_lt_iff₀ hb).2 hab
  have h0 : 0 ≤ a / b := le_trans zero_le_one h1
  have hf : ⌊a / b⌋ = 1 := by
    rw [Int.floor_eq_iff]
    constructor
    · simpa using h1
    · norm_num
      linarith
  simp [jsRem, truncQ, h0, hf]

theorem angleDelta_of_near (t f : ℚ) (h1 : -MathPI ≤ t - f) (h2 : t - f < MathPI) :
    angleDelta t f = t - f := by
  have hp := MathPI_pos
  unfold angleDelta
  rw [jsRem_of_nonneg_of_lt _ _ (by linarith) (by linarith)]
  ring

theorem angleDelta_of_far_pos (t f : ℚ) (h1 : MathPI ≤ t - f) (h2 : t - f < 3 * MathPI) :
    angleDelta t f = t - f - 2 * MathPI := by
  have hp := MathPI_pos
  unfold angleDelta
  rw [jsRem_of_ge_of_lt _ _ (by linarith) (by linarith) (by linarith)]
  ring

theorem angleDelta_of_far_neg (t f : ℚ) (h1 : -3 * MathPI < t - f) (h2 : t - f < -MathPI) :
    angleDelta t f = t - f := by
  have hp := MathPI_pos
  unfold angleDelta
  rw [jsRem_of_neg_of_lt _ _ (by linarith) (by linarith)]
  ring

/-- C10 (as stated, refuted): with facing yaw 3 and target yaw -3, both inside
the half-open interval from -pi to pi, the computed delta is -6, below -pi; and
with facing yaw -3.14, target yaw 2.5, turn rate 3 and a frame of 1/60 s the
facing yaw after the step is below -pi. -/
theorem angleDelta_not_shortest :
    (-MathPI < 3 ∧ 3 ≤ MathPI ∧ -MathPI < -3 ∧ -3 ≤ MathPI ∧
        angleDelta (-3) 3 = -6 ∧ angleDelta (-3) 3 < -MathPI) ∧
      (-MathPI < -157 / 50 ∧ -157 / 50 ≤ MathPI ∧ -MathPI < 5 / 2 ∧ 5 / 2 ≤ MathPI ∧
        -MathPI ≤ angleDelta (5 / 2) (-157 / 50) ∧ angleDelta (5 / 2) (-157 / 50) ≤ MathPI ∧
        turnToward 3 (1 / 60) (5 / 2) (-157 / 50) < -MathPI) := by
  have e1 : angleDelta (-3) 3 = -6 := by
    rw [angleDelta_of_far_neg _ _ (by norm_num [MathPI]) (by norm_num [MathPI])]
    norm_num
  have e2 : angleDelta (5 / 2) (-157 / 50) = 5 / 2 - -157 / 50 - 2 * MathPI :=
    angleDelta_of_far_pos _ _ (by norm_num [MathPI]) (by norm_num [MathPI])
  refine ⟨⟨?_, ?_, ?_, ?_, e1, ?_⟩, ?_, ?_, ?_, ?_, ?_, ?_, ?_⟩
  all_goals first
    | (rw [e1]; norm_num [MathPI])
    | (rw [turnToward, e2]; norm_num [MathPI])
    | (rw [e2]; norm_num [MathPI])
    | norm_num [MathPI]

/-- C10 (amended): for facing and target yaw in the half-open interval from
-pi to pi with `targetYaw - facingYaw ≥ -pi`, the computed delta lies between
-pi (included) and pi (excluded) and is `targetYaw - facingYaw` or that minus
a full turn; the facing yaw after the step is not wrapped and lies between
-2 pi (excluded) and pi (included). -/
theorem angleDelta_shortest_of_ge (turnSmooth dt t f : ℚ)
    (hf : -MathPI < f ∧ f ≤ MathPI) (ht : -MathPI < t ∧ t ≤ MathPI)
    (hge : -MathPI ≤ t - f) (hrate : 0 ≤ turnSmooth * dt) :
    (-MathPI ≤ angleDelta t f ∧ angleDelta t f < MathPI) ∧
      (angleDelta t f = t - f ∨ angleDelta t f = t - f - 2 * MathPI) ∧
      (-(2 * MathPI) < turnToward turnSmooth dt t f ∧
        turnToward turnSmooth dt t f ≤ MathPI) := by
  have hp := MathPI_pos
  obtain ⟨hf1, hf2⟩ := hf
  obtain ⟨ht1, ht2⟩ := ht
  have hk0 : 0 ≤ min 1 (turnSmooth * dt) := le_min zero_le_one hrate
  have hk1 : min 1 (turnSmooth * dt) ≤ 1 := min_le_left _ _
  unfold turnToward
  generalize min 1 (turnSmooth * dt) = k at hk0 hk1 ⊢
  by_cases hlt : t - f < MathPI
  · rw [angleDelta_of_near t f hge hlt]
    refine ⟨⟨hge, hlt⟩, Or.inl rfl, ?_, ?_⟩
    · nlinarith [mul_nonneg hk0 (by linarith : (0 : ℚ) ≤ t + MathPI),
        mul_nonneg (by linarith : (0 : ℚ) ≤ 1 - k) (by linarith : (0 : ℚ) ≤ f + MathPI)]
    · nlinarith [mul_nonneg hk0 (by linarith : (0 : ℚ) ≤ MathPI - t),
        mul_nonneg (by linarith : (0 : ℚ) ≤ 1 - k) (by linarith : (0 : ℚ) ≤ MathPI - f)]
  · have hge2 : MathPI ≤ t - f := le_of_not_lt hlt
    rw [angleDelta_of_far_pos t f hge2 (by linarith)]
    refine ⟨⟨by linarith, by linarith⟩, Or.inr rfl, ?_, ?_⟩
    · nlinarith [mul_nonneg hk0 (by linarith : (0 : ℚ) ≤ t - f - 2 * MathPI + MathPI),
        mul_nonneg (by linarith : (0 : ℚ) ≤ 1 - k) hp.le]
    · nlinarith [mul_nonneg hk0 (by linarith : (0 : ℚ) ≤ -(t - f - 2 * MathPI))]

theorem angleDelta_shortest_of_ge_witness :
    (-MathPI ≤ angleDelta (5 / 2) (-157 / 50) ∧ angleDelta (5 / 2) (-157 / 50) < MathPI) ∧
      (angleDelta (5 / 2) (-157 / 50) = 5 / 2 - -157 / 50 ∨
        angleDelta (5 / 2) (-157 / 50) = 5 / 2 - -157 / 50 - 2 * MathPI) ∧
      (-(2 * MathPI) < turnToward 3 (1 / 60) (5 / 2) (-157 / 50) ∧
        turnToward 3 (1 / 60) (5 / 2) (-157 / 50) ≤ MathPI) :=
  angleDelta_shortest_of_ge 3 (1 / 60) (5 / 2) (-157 / 50)
    (by norm_num [MathPI]) (by norm_num [MathPI]) (by norm_num [MathPI]) (by norm_num)

/-! ## Spawn overlap -/

theorem sampleMath_sqrt_one : sampleMath.sqrt 1 = 1 := by
  simp [sampleMath, Nat.sqrt]

theorem sampleMath_sqrt_quarter : sampleMath.sqrt (1 / 4) = 1 / 2 := by
  have h : Nat.sqrt 4 = 2 := Nat.sqrt_eq' 2
  have hn : ((1 : ℚ) / 4).num = 1 := by norm_num
  have hd : ((1 : ℚ) / 4).den = 4 := by norm_num
  simp only [sampleMath, hn, hd]
  norm_num [h]

theorem resolveSpawnOverlap_center (M : JSMath) (hs : M.sqrt 1 = 1) :
    (resolveSpawnOverlap M (spawnScene ⟨0, 0, 0⟩)).refs.playerPosition = ⟨11 / 20, 0, 0⟩ := by
  simp [resolveSpawnOverlap, resolveSpawnLoop, pushOut, spawnScene, initialState,
    insideInflated, squareObstacle, Vector3.sub, Vector3.lengthSq, Vector3.normalize,
    Vector3.length, Vector3.divideScalar, Vector3.multiplyScalar, Vector3.add, hs]
  norm_num

theorem resolveSpawnOverlap_offCenter (M : JSMath) (hq : M.sqrt (1 / 4) = 1 / 2) :
    (resolveSpawnOverlap M (spawnScene ⟨1 / 2, 0, 0⟩)).refs.playerPosition =
      ⟨21 / 20, 0, 0⟩ := by
  have hq' : M.sqrt (2⁻¹ * 2⁻¹) = 1 / 2 := by
    rw [← hq]
    norm_num
  simp [resolveSpawnOverlap, resolveSpawnLoop, pushOut, spawnScene, initialState,
    insideInflated, squareObstacle, Vector3.sub, Vector3.lengthSq, Vector3.normalize,
    Vector3.length, Vector3.divideScalar, Vector3.multiplyScalar, Vector3.add, hq']
  norm_num

/-- C2 (the code at the failing input): with the footprint from -1 to 1 and
radius 0.25, a spawn at the centre of the footprint is inside the inflated
footprint, is moved by `resolveSpawnOverlap` to x = 0.55, and is still inside
the inflated footprint, so the player still collides; a spawn at x = 0.5 is
moved to x = 1.05 and is still inside as well. -/
theorem resolveSpawnOverlap_stays_inside (M : JSMath) (hs : M.sqrt 1 = 1)
    (hq : M.sqrt (1 / 4) = 1 / 2) :
    (spawnScene ⟨0, 0, 0⟩).state.playerRadius = 1 / 4 ∧
      (insideInflated (1 / 4) squareObstacle ⟨0, 0, 0⟩ = true ∧
        (resolveSpawnOverlap M (spawnScene ⟨0, 0, 0⟩)).refs.playerPosition = ⟨11 / 20, 0, 0⟩ ∧
        insideInflated (1 / 4) squareObstacle
          (resolveSpawnOverlap M (spawnScene ⟨0, 0, 0⟩)).refs.playerPosition = true ∧
        collides (resolveSpawnOverlap M (spawnScene ⟨0, 0, 0⟩))
          (resolveSpawnOverlap M (spawnScene ⟨0, 0, 0⟩)).refs.playerPosition = true) ∧
      (insideInflated (1 / 4) squareObstacle ⟨1 / 2, 0, 0⟩ = true ∧
        (resolveSpawnOverlap M (spawnScene ⟨1 / 2, 0, 0⟩)).refs.playerPosition =
          ⟨21 / 20, 0, 0⟩ ∧
        insideInflated (1 / 4) squareObstacle
          (resolveSpawnOverlap M (spawnScene ⟨1 / 2, 0, 0⟩)).refs.playerPosition = true ∧
        collides (resolveSpawnOverlap M (spawnScene ⟨1 / 2, 0, 0⟩))
          (resolveSpawnOverlap M (spawnScene ⟨1 / 2, 0, 0⟩)).refs.playerPosition = true) := by
  have h1 := resolveSpawnOverlap_center M hs
  have h2 := resolveSpawnOverlap_offCenter M hq
  refine ⟨?_, ⟨?_, h1, ?_, ?_⟩, ?_, h2, ?_, ?_⟩
  · norm_num [spawnScene, initialState]
  · norm_num [insideInflated, squareObstacle]
  · rw [h1]
    norm_num [insideInflated, squareObstacle]
  · rw [collides, h1]
    norm_num [resolveSpawnOverlap, spawnScene, initialState, collidesWith, insideInflated,
      squareObstacle]
  · norm_num [insideInflated, squareObstacle]
  · rw [h2]
    norm_num [insideInflated, squareObstacle]
  · rw [collides, h2]
    norm_num [resolveSpawnOverlap, spawnScene, initialState, collidesWith, insideInflated,
      squareObstacle]

theorem resolveSpawnOverlap_stays_inside_witness :
    (spawnScene ⟨0, 0, 0⟩).state.playerRadius = 1 / 4 ∧
      (insideInflated (1 / 4) squareObstacle ⟨0, 0, 0⟩ = true ∧
        (resolveSpawnOverlap sampleMath (spawnScene ⟨0, 0, 0⟩)).refs.playerPosition =
          ⟨11 / 20, 0, 0⟩ ∧
        insideInflated (1 / 4) squareObstacle
          (resolveSpawnOverlap sampleMath (spawnScene ⟨0, 0, 0⟩)).refs.playerPosition = true ∧
        collides (resolveSpawnOverlap sampleMath (spawnScene ⟨0, 0, 0⟩))
          (resolveSpawnOverlap sampleMath (spawnScene ⟨0, 0, 0⟩)).refs.playerPosition = true) ∧
      (insideInflated (1 / 4) squareObstacle ⟨1 / 2, 0, 0⟩ = true ∧
        (resolveSpawnOverlap sampleMath (spawnScene ⟨1 / 2, 0, 0⟩)).refs.playerPosition =
          ⟨21 / 20, 0, 0⟩ ∧
        insideInflated (1 / 4) squareObstacle
          (resolveSpawnOverlap sampleMath (spawnScene ⟨1 / 2, 0, 0⟩)).refs.playerPosition =
          true ∧
        collides (resolveSpawnOverlap sampleMath (spawnScene ⟨1 / 2, 0, 0⟩))
          (resolveSpawnOverlap sampleMath (spawnScene ⟨1 / 2, 0, 0⟩)).refs.playerPosition =
          true) :=
  resolveSpawnOverlap_stays_inside sampleMath sampleMath_sqrt_one sampleMath_sqrt_quarter

/-! ## Idle frames -/

theorem desiredDirection_idle (M : JSMath) (k : Keys) (cam : Vector3) (yaw : ℚ)
    (hk : k.idle) : desiredDirection M k cam yaw = Vector3.zero := by
  obtain ⟨h1, h2, h3, h4, h5, h6, h7, h8⟩ := hk
  simp [desiredDirection, h1, h2, h3, h4, h5, h6, h7, h8]

theorem applyGravityAndGround_spec (dt : ℚ) (g : Game) :
    (applyGravityAndGround dt g).state =
        { g.state with velocityY := (applyGravityAndGround dt g).state.velocityY } ∧
      (applyGravityAndGround dt g).refs =
        { g.refs with
          playerPosition :=
            ⟨g.refs.playerPosition.x, (applyGravityAndGround dt g).refs.playerPosition.y,
              g.refs.playerPosition.z⟩ } ∧
      (applyGravityAndGround dt g).hintText = g.hintText ∧
      (g.refs.piso = none →
        (applyGravityAndGround dt g).refs.playerPosition.y = g.refs.playerPosition.y ∧
          (applyGravityAndGround dt g).state.velocityY = g.state.velocityY) ∧
      (∀ (ray : Vector3 → Option ℚ) (hitY : ℚ), g.refs.piso = some ray →
        ray ⟨g.refs.playerPosition.x, g.refs.playerPosition.y + 1,
          g.refs.playerPosition.z⟩ = some hitY →
        g.refs.playerPosition.y - hitY ≤ g.state.groundSnapMax →
        (applyGravityAndGround dt g).refs.playerPosition.y = hitY ∧
          (applyGravityAndGround dt g).state.velocityY = 0) ∧
      (∀ ray : Vector3 → Option ℚ, g.refs.piso = some ray →
        (ray ⟨g.refs.playerPosition.x, g.refs.playerPosition.y + 1,
            g.refs.playerPosition.z⟩ = none ∨
          ∃ hitY : ℚ,
            ray ⟨g.refs.playerPosition.x, g.refs.playerPosition.y + 1,
              g.refs.playerPosition.z⟩ = some hitY ∧
            g.state.groundSnapMax < g.refs.playerPosition.y - hitY) →
        (applyGravityAndGround dt g).state.velocityY = g.state.velocityY + g.state.gravity * dt ∧
          (applyGravityAndGround dt g).refs.playerPosition.y =
            g.refs.playerPosition.y + (g.state.velocityY + g.state.gravity * dt) * dt) := by
  rcases hp : g.refs.piso with _ | ray
  · have e : applyGravityAndGround dt g = g := by
      simp [applyGravityAndGround, hp]
    rw [e]
    refine ⟨rfl, ?_, rfl, fun _ => ⟨rfl, rfl⟩, ?_, ?_⟩
    · rfl
    · intro ray hitY h
      simp at h
    · intro ray h
      simp at h
  · rcases hr : ray ⟨g.refs.playerPosition.x, g.refs.playerPosition.y + 1,
        g.refs.playerPosition.z⟩ with _ | hitY
    · have e : applyGravityAndGround dt g =
          { g with
            state := { g.state with velocityY := g.state.velocityY + g.state.gravity * dt }
            refs := { g.refs with
              playerPosition := ⟨g.refs.playerPosition.x,
                g.refs.playerPosition.y + (g.state.velocityY + g.state.gravity * dt) * dt,
                g.refs.playerPosition.z⟩ } } := by
        simp [applyGravityAndGround, hp, hr]
      rw [e]
      refine ⟨rfl, ?_, rfl, ?_, ?_, ?_⟩
      · rfl
      · intro h
        simp at h
      · intro ray' hitY h1 h2
        have : ray' = ray := (Option.some.inj h1).symm
        subst this
        rw [hr] at h2
        simp at h2
      · intro _ _ _
        exact ⟨rfl, rfl⟩
    · by_cases hsnap : g.refs.playerPosition.y - hitY ≤ g.state.groundSnapMax
      · have e : applyGravityAndGround dt g =
            { g with
              state := { g.state with velocityY := 0 }
              refs := { g.refs with
                playerPosition := ⟨g.refs.playerPosition.x, hitY,
                  g.refs.playerPosition.z⟩ } } := by
          simp [applyGravityAndGround, hp, hr, hsnap]
        rw [e]
        refine ⟨rfl, ?_, rfl, ?_, ?_, ?_⟩
        · rfl
        · intro h
          simp at h
        · intro ray' hitY' h1 h2 _
          have : ray' = ray := (Option.some.inj h1).symm
          subst this
          rw [hr] at h2
          have : hitY' = hitY := (Option.some.inj h2).symm
          subst this
          exact ⟨rfl, rfl⟩
        · intro ray' h1 h2
          have : ray' = ray := (Option.some.inj h1).symm
          subst this
          rw [hr] at h2
          rcases h2 with h2 | ⟨hitY', h2, h3⟩
          · simp at h2
          · have : hitY' = hitY := (Option.some.inj h2).symm
            subst this
            exact absurd hsnap (not_le.2 h3)
      · have e : applyGravityAndGround dt g =
            { g with
              state := { g.state with velocityY := g.state.velocityY + g.state.gravity * dt }
              refs := { g.refs with
                playerPosition := ⟨g.refs.playerPosition.x,
                  g.refs.playerPosition.y + (g.state.velocityY + g.state.gravity * dt) * dt,
                  g.refs.playerPosition.z⟩ } } := by
          simp [applyGravityAndGround, hp, hr, hsnap]
        rw [e]
        refine ⟨rfl, ?_, rfl, ?_, ?_, ?_⟩
        · rfl
        · intro h
          simp at h
        · intro ray' hitY' h1 h2 h3
          have : ray' = ray := (Option.some.inj h1).symm
          subst this
          rw [hr] at h2
          have : hitY' = hitY := (Option.some.inj h2).symm
          subst this
          exact absurd h3 hsnap
        · intro _ _ _
          exact ⟨rfl, rfl⟩

theorem idleFrame_eq (M : JSMath) (inp : FrameInput) (dt : ℚ) (g : Game)
    (hl : g.state.loaded = true) (hk : g.state.keys.idle) :
    movePlayer M inp dt g =
      applyGravityAndGround dt { g with state := { g.state with walkingSfx := false } } := by
  simp [movePlayer, hl, desiredDirection_idle M _ _ _ hk, Vector3.lengthSq, Vector3.zero]

/-- C8 (as stated, refuted): in a loaded scene with no movement key held and the
footstep flag set, a frame of 1/60 s changes `state.walkingSfx` from true to
false, a field other than the y coordinate and `velocityY`. -/
theorem movePlayer_idle_clears_walkingSfx :
    walkingScene.state.loaded = true ∧ walkingScene.state.keys.idle ∧ (0 : ℚ) < 1 / 60 ∧
      walkingScene.state.walkingSfx = true ∧
      (movePlayer sampleMath ⟨⟨0, 0, -1⟩, true⟩ (1 / 60) walkingScene).state.walkingSfx =
        false ∧
      (movePlayer sampleMath ⟨⟨0, 0, -1⟩, true⟩ (1 / 60) walkingScene).state.walkingSfx ≠
        walkingScene.state.walkingSfx := by
  have hk : walkingScene.state.keys.idle := ⟨rfl, rfl, rfl, rfl, rfl, rfl, rfl, rfl⟩
  have hw : (movePlayer sampleMath ⟨⟨0, 0, -1⟩, true⟩ (1 / 60) walkingScene).state.walkingSfx =
      false := by
    rw [idleFrame_eq sampleMath _ _ walkingScene rfl hk,
      (applyGravityAndGround_spec _ _).1]
  refine ⟨rfl, hk, by norm_num, rfl, hw, ?_⟩
  rw [hw]
  exact fun h => Bool.noConfusion h

/-- C8 (amended): in a loaded state with none of the eight movement keys held,
a frame of `movePlayer` (any `dt`, in particular `dt > 0`) leaves the x and z
coordinates of the player and the facing yaw unchanged and sets
`state.walkingSfx` to false; apart from that flag only the y coordinate and
`velocityY` may differ, every other field of `state` and `refs` and the hint
being the same, and those two are set by the gravity and ground step: kept
without ground, snapped to the hit height with zero velocity when the hit is
within `groundSnapMax`, integrated with gravity otherwise. -/
theorem movePlayer_idle (M : JSMath) (inp : FrameInput) (dt : ℚ) (g : Game)
    (hl : g.state.loaded = true) (hk : g.state.keys.idle) :
    (movePlayer M inp dt g).state =
        { g.state with
          walkingSfx := false
          velocityY := (movePlayer M inp dt g).state.velocityY } ∧
      (movePlayer M inp dt g).refs =
        { g.refs with
          playerPosition :=
            ⟨g.refs.playerPosition.x, (movePlayer M inp dt g).refs.playerPosition.y,
              g.refs.playerPosition.z⟩ } ∧
      (movePlayer M inp dt g).hintText = g.hintText ∧
      (movePlayer M inp dt g).refs.playerPosition.x = g.refs.playerPosition.x ∧
      (movePlayer M inp dt g).refs.playerPosition.z = g.refs.playerPosition.z ∧
      (movePlayer M inp dt g).state.facingYaw = g.state.facingYaw ∧
      (movePlayer M inp dt g).state.walkingSfx = false ∧
      (g.refs.piso = none →
        (movePlayer M inp dt g).refs.playerPosition.y = g.refs.playerPosition.y ∧
          (movePlayer M inp dt g).state.velocityY = g.state.velocityY) ∧
      (∀ (ray : Vector3 → Option ℚ) (hitY : ℚ), g.refs.piso = some ray →
        ray ⟨g.refs.playerPosition.x, g.refs.playerPosition.y + 1,
          g.refs.playerPosition.z⟩ = some hitY →
        g.refs.playerPosition.y - hitY ≤ g.state.groundSnapMax →
        (movePlayer M inp dt g).refs.playerPosition.y = hitY ∧ (movePlayer M inp dt g).state.velocityY = 0) ∧
      (∀ ray : Vector3 → Option ℚ, g.refs.piso = some ray →
        (ray ⟨g.refs.playerPosition.x, g.refs.playerPosition.y + 1,
            g.refs.playerPosition.z⟩ = none ∨
          ∃ hitY : ℚ,
            ray ⟨g.refs.playerPosition.x, g.refs.playerPosition.y + 1,
              g.refs.playerPosition.z⟩ = some hitY ∧
            g.state.groundSnapMax < g.refs.playerPosition.y - hitY) →
        (movePlayer M inp dt g).state.velocityY = g.state.velocityY + g.state.gravity * dt ∧
          (movePlayer M inp dt g).refs.playerPosition.y =
            g.refs.playerPosition.y +
              (g.state.velocityY + g.state.gravity * dt) * dt) := by
  have hm := idleFrame_eq M inp dt g hl hk
  obtain ⟨h1, h2, h3, h4, h5, h6⟩ :=
    applyGravityAndGround_spec dt { g with state := { g.state with walkingSfx := false } }
  rw [hm]
  refine ⟨h1, h2, h3, ?_, ?_, ?_, ?_, h4, h5, h6⟩
  · rw [h2]
  · rw [h2]
  · rw [h1]
  · rw [h1]

theorem movePlayer_idle_witness :
    (movePlayer sampleMath ⟨⟨0, 0, -1⟩, true⟩ (1 / 60) walkingScene).state =
        { walkingScene.state with
          walkingSfx := false
          velocityY := (movePlayer sampleMath ⟨⟨0, 0, -1⟩, true⟩ (1 / 60) walkingScene).state.velocityY } ∧
      (movePlayer sampleMath ⟨⟨0, 0, -1⟩, true⟩ (1 / 60) walkingScene).refs =
        { walkingScene.refs with
          playerPosition :=
            ⟨walkingScene.refs.playerPosition.x, (movePlayer sampleMath ⟨⟨0, 0, -1⟩, true⟩ (1 / 60) walkingScene).refs.playerPosition.y,
              walkingScene.refs.playerPosition.z⟩ } ∧
      (movePlayer sampleMath ⟨⟨0, 0, -1⟩, true⟩ (1 / 60) walkingScene).hintText = walkingScene.hintText ∧
      (movePlayer sampleMath ⟨⟨0, 0, -1⟩, true⟩ (1 / 60) walkingScene).refs.playerPosition.x = walkingScene.refs.playerPosition.x ∧
      (movePlayer sampleMath ⟨⟨0, 0, -1⟩, true⟩ (1 / 60) walkingScene).refs.playerPosition.z = walkingScene.refs.playerPosition.z ∧
      (movePlayer sampleMath ⟨⟨0, 0, -1⟩, true⟩ (1 / 60) walkingScene).state.facingYaw = walkingScene.state.facingYaw ∧
      (movePlayer sampleMath ⟨⟨0, 0, -1⟩, true⟩ (1 / 60) walkingScene).state.walkingSfx = false ∧
      (walkingScene.refs.piso = none →
        (movePlayer sampleMath ⟨⟨0, 0, -1⟩, true⟩ (1 / 60) walkingScene).refs.playerPosition.y = walkingScene.refs.playerPosition.y ∧
          (movePlayer sampleMath ⟨⟨0, 0, -1⟩, true⟩ (1 / 60) walkingScene).state.velocityY = walkingScene.state.velocityY) ∧
      (∀ (ray : Vector3 → Option ℚ) (hitY : ℚ), walkingScene.refs.piso = some ray →
        ray ⟨walkingScene.refs.playerPosition.x, walkingScene.refs.playerPosition.y + 1,
          walkingScene.refs.playerPosition.z⟩ = some hitY →
        walkingScene.refs.playerPosition.y - hitY ≤ walkingScene.state.groundSnapMax →
        (movePlayer sampleMath ⟨⟨0, 0, -1⟩, true⟩ (1 / 60) walkingScene).refs.playerPosition.y = hitY ∧ (movePlayer sampleMath ⟨⟨0, 0, -1⟩, true⟩ (1 / 60) walkingScene).state.velocityY = 0) ∧
      (∀ ray : Vector3 → Option ℚ, walkingScene.refs.piso = some ray →
        (ray ⟨walkingScene.refs.playerPosition.x, walkingScene.refs.playerPosition.y + 1,
            walkingScene.refs.playerPosition.z⟩ = none ∨
          ∃ hitY : ℚ,
            ray ⟨walkingScene.refs.playerPosition.x, walkingScene.refs.playerPosition.y + 1,
              walkingScene.refs.playerPosition.z⟩ = some hitY ∧
            walkingScene.state.groundSnapMax < walkingScene.refs.playerPosition.y - hitY) →
        (movePlayer sampleMath ⟨⟨0, 0, -1⟩, true⟩ (1 / 60) walkingScene).state.velocityY = walkingScene.state.velocityY + walkingScene.state.gravity * (1 / 60) ∧
          (movePlayer sampleMath ⟨⟨0, 0, -1⟩, true⟩ (1 / 60) walkingScene).refs.playerPosition.y =
            walkingScene.refs.playerPosition.y +
              (walkingScene.state.velocityY + walkingScene.state.gravity * (1 / 60)) * (1 / 60)) :=
  movePlayer_idle sampleMath ⟨⟨0, 0, -1⟩, true⟩ (1 / 60) walkingScene rfl
    ⟨rfl, rfl, rfl, rfl, rfl, rfl, rfl, rfl⟩

/-! ## The nearest-collectible search -/

theorem lookup_lt {l : List Collectible} {j : Nat} {c : Collectible} (h : l[j]? = some c) :
    j < l.length := by
  induction l generalizing j with
  | nil => simp at h
  | cons a l ih =>
    cases j with
    | zero => simp
    | succ j =>
      simp only [List.getElem?_cons_succ] at h
      simpa using ih h

theorem lookup_snoc {l : List Collectible} {a c : Collectible} {j : Nat}
    (h : (l ++ [a])[j]? = some c) :
    (j < l.length ∧ l[j]? = some c) ∨ (j = l.length ∧ c = a) := by
  induction l generalizing j with
  | nil =>
    cases j with
    | zero =>
      right
      simpa [eq_comm] using h
    | succ j => simp at h
  | cons b l ih =>
    cases j with
    | zero =>
      left
      simpa using h
    | succ j =>
      simp only [List.cons_append, List.getElem?_cons_succ] at h
      rcases ih h with ⟨h1, h2⟩ | ⟨h1, h2⟩
      · left
        exact ⟨by simpa using h1, by simpa using h2⟩
      · right
        exact ⟨by simpa using h1, h2⟩

theorem lookup_snoc_left {l : List Collectible} {a c : Collectible} {j : Nat}
    (h : l[j]? = some c) : (l ++ [a])[j]? = some c := by
  induction l generalizing j with
  | nil => simp at h
  | cons b l ih =>
    cases j with
    | zero => simpa using h
    | succ j =>
      simp only [List.getElem?_cons_succ] at h
      simpa using ih h

theorem lookup_snoc_length (l : List Collectible) (a : Collectible) :
    (l ++ [a])[l.length]? = some a := by
  induction l with
  | nil => simp
  | cons b l ih => simp

theorem isNearest_snoc_keep (M : JSMath) (g : Game) (maxDist : ℚ) (pre : List Collectible)
    (c : Collectible) (best : Option Nat) (h : IsNearest M g maxDist pre best)
    (hnone : best = none → c.taken = false → c.deposited = false →
      maxDist < playerDistance M g c)
    (hsome : ∀ i ci, best = some i → pre[i]? = some ci → c.taken = false →
      c.deposited = false → playerDistance M g ci ≤ playerDistance M g c) :
    IsNearest M g maxDist (pre ++ [c]) best := by
  cases best with
  | none =>
    simp only [IsNearest] at h ⊢
    intro j c' hj ht hd
    rcases lookup_snoc hj with ⟨_, h2⟩ | ⟨_, h2⟩
    · exact h j c' h2 ht hd
    · subst h2
      exact hnone rfl ht hd
  | some i =>
    simp only [IsNearest] at h ⊢
    obtain ⟨ci, hi, hti, hdi, hmax, hmin, hfirst⟩ := h
    refine ⟨ci, lookup_snoc_left hi, hti, hdi, hmax, ?_, ?_⟩
    · intro j c' hj ht hd
      rcases lookup_snoc hj with ⟨_, h2⟩ | ⟨_, h2⟩
      · exact hmin j c' h2 ht hd
      · subst h2
        exact hsome i ci rfl hi ht hd
    · intro j c' hji hj ht hd
      rcases lookup_snoc hj with ⟨_, h2⟩ | ⟨h1, _⟩
      · exact hfirst j c' hji h2 ht hd
      · have := lookup_lt hi
        omega

theorem isNearest_snoc_take (M : JSMath) (g : Game) (maxDist : ℚ) (pre : List Collectible)
    (c : Collectible) (best : Option Nat) (h : IsNearest M g maxDist pre best)
    (ht : c.taken = false) (hd : c.deposited = false)
    (hmax : playerDistance M g c ≤ maxDist)
    (hsome : ∀ i ci, best = some i → pre[i]? = some ci →
      playerDistance M g c < playerDistance M g ci) :
    IsNearest M g maxDist (pre ++ [c]) (some pre.length) := by
  have key : ∀ (j : Nat) (c' : Collectible), pre[j]? = some c' → c'.taken = false →
      c'.deposited = false → playerDistance M g c < playerDistance M g c' := by
    intro j c' hj ht' hd'
    cases best with
    | none =>
      simp only [IsNearest] at h
      exact lt_of_le_of_lt hmax (h j c' hj ht' hd')
    | some i =>
      simp only [IsNearest] at h
      obtain ⟨ci, hi, _, _, _, hmin, _⟩ := h
      exact lt_of_lt_of_le (hsome i ci rfl hi) (hmin j c' hj ht' hd')
  simp only [IsNearest]
  refine ⟨c, lookup_snoc_length pre c, ht, hd, hmax, ?_, ?_⟩
  · intro j c' hj ht' hd'
    rcases lookup_snoc hj with ⟨_, h2⟩ | ⟨_, h2⟩
    · exact (key j c' h2 ht' hd').le
    · subst h2
      exact le_refl _
  · intro j c' hjl hj ht' hd'
    rcases lookup_snoc hj with ⟨_, h2⟩ | ⟨h1, _⟩
    · exact key j c' h2 ht' hd'
    · omega

theorem nearestLoop_isNearest (M : JSMath) (g : Game) (maxDist : ℚ) (cs : List Collectible) :
    ∀ (pre : List Collectible) (best : Option Nat) (bestD : Option ℚ),
      IsNearest M g maxDist pre best →
      (best = none → bestD = none) →
      (∀ (i : Nat) (ci : Collectible), best = some i → pre[i]? = some ci →
        bestD = some (playerDistance M g ci)) →
      IsNearest M g maxDist (pre ++ cs)
        (nearestLoop M g maxDist cs pre.length best bestD) := by
  induction cs with
  | nil =>
    intro pre best bestD h _ _
    simpa [nearestLoop] using h
  | cons c cs ih =>
    intro pre best bestD h hn hs
    have hlen : (pre ++ [c]).length = pre.length + 1 := by simp
    have happ : pre ++ c :: cs = (pre ++ [c]) ++ cs := by simp
    have hvalid : ∀ (i : Nat), best = some i → ∃ ci, pre[i]? = some ci ∧
        playerDistance M g ci ≤ maxDist := by
      intro i hi
      subst hi
      simp only [IsNearest] at h
      obtain ⟨ci, h1, _, _, h4, _⟩ := h
      exact ⟨ci, h1, h4⟩
    have hs' : ∀ (i : Nat) (ci : Collectible), best = some i → (pre ++ [c])[i]? = some ci →
        bestD = some (playerDistance M g ci) := by
      intro i ci hi hci
      rcases lookup_snoc hci with ⟨_, h2⟩ | ⟨h1, _⟩
      · exact hs i ci hi h2
      · obtain ⟨cj, hcj, _⟩ := hvalid i hi
        have := lookup_lt hcj
        omega
    rw [happ, nearestLoop]
    by_cases hflag : (c.taken || c.deposited) = true
    · rw [if_pos hflag, ← hlen]
      refine ih (pre ++ [c]) best bestD ?_ hn hs'
      refine isNearest_snoc_keep M g maxDist pre c best h ?_ ?_
      · intro _ ht hd
        simp [ht, hd] at hflag
      · intro _ _ _ _ ht hd
        simp [ht, hd] at hflag
    · rw [if_neg hflag]
      have ht : c.taken = false := by
        cases h1 : c.taken <;> simp [h1] at hflag ⊢
      have hd : c.deposited = false := by
        cases h1 : c.deposited <;> simp [h1] at hflag ⊢
      show IsNearest M g maxDist (pre ++ [c] ++ cs)
        (if (belowBest (playerDistance M g c) bestD && decide (playerDistance M g c ≤ maxDist))
            = true then
          nearestLoop M g maxDist cs (pre.length + 1) (some pre.length)
            (some (playerDistance M g c))
        else nearestLoop M g maxDist cs (pre.length + 1) best bestD)
      by_cases hbetter : (belowBest (playerDistance M g c) bestD &&
          decide (playerDistance M g c ≤ maxDist)) = true
      · rw [if_pos hbetter, ← hlen]
        simp only [Bool.and_eq_true, decide_eq_true_eq] at hbetter
        obtain ⟨hb, hmax⟩ := hbetter
        refine ih (pre ++ [c]) (some pre.length) (some (playerDistance M g c)) ?_ ?_ ?_
        · refine isNearest_snoc_take M g maxDist pre c best h ht hd hmax ?_
          intro i ci hi hci
          rw [hs i ci hi hci] at hb
          simpa [belowBest] using hb
        · intro hcontra
          simp at hcontra
        · intro i ci hi hci
          have hi' : i = pre.length := by simpa [eq_comm] using hi
          subst hi'
          rw [lookup_snoc_length] at hci
          have : ci = c := by simpa [eq_comm] using hci
          rw [this]
      · rw [if_neg hbetter, ← hlen]
        refine ih (pre ++ [c]) best bestD ?_ hn hs'
        refine isNearest_snoc_keep M g maxDist pre c best h ?_ ?_
        · intro hbn _ _
          rw [hn hbn] at hbetter
          simpa [belowBest] using hbetter
        · intro i ci hi hci _ _
          rw [hs i ci hi hci] at hbetter
          obtain ⟨cj, hcj, hcjmax⟩ := hvalid i hi
          have hcc : cj = ci := by
            rw [hci] at hcj
            simpa [eq_comm] using hcj
          subst hcc
          simp only [belowBest, Bool.and_eq_true, decide_eq_true_eq, not_and, not_le] at hbetter
          by_cases hlt : playerDistance M g c < playerDistance M g cj
          · exact le_of_lt (lt_of_le_of_lt hcjmax (hbetter hlt))
          · exact le_of_not_lt hlt

theorem nearestCollectible_isNearest (M : JSMath) (g : Game) (maxDist : ℚ) :
    IsNearest M g maxDist g.refs.collectibles (nearestCollectible M g maxDist) := by
  unfold nearestCollectible
  split_ifs with h0
  · have hnil : g.refs.collectibles = [] := List.length_eq_zero.1 h0
    rw [hnil]
    intro j c hj
    simp at hj
  · have h := nearestLoop_isNearest M g maxDist g.refs.collectibles [] none none
      (by intro j c hj; simp at hj) (fun _ => rfl) (by intro i ci hi; simp at hi)
    simpa using h

/-- C5: `nearestCollectible(maxDist)` is `null` exactly when no collectible
with `taken` and `deposited` both false lies within `maxDist` of the player;
otherwise it is such a collectible within `maxDist`, no farther than any other
collectible that is neither taken nor deposited, and strictly nearer than each
such collectible placed before it in the registry. -/
theorem nearestCollectible_spec (M : JSMath) (g : Game) (maxDist : ℚ) :
    (nearestCollectible M g maxDist = none ↔
        ∀ (j : Nat) (c : Collectible), g.refs.collectibles[j]? = some c →
          ¬(c.taken = false ∧ c.deposited = false ∧
            (worldPos g c.obj).distanceTo M g.refs.playerPosition ≤ maxDist)) ∧
      (∀ i : Nat, nearestCollectible M g maxDist = some i →
        ∃ c : Collectible, g.refs.collectibles[i]? = some c ∧
          c.taken = false ∧ c.deposited = false ∧
          (worldPos g c.obj).distanceTo M g.refs.playerPosition ≤ maxDist ∧
          (∀ (j : Nat) (c' : Collectible), g.refs.collectibles[j]? = some c' →
            c'.taken = false → c'.deposited = false →
            (worldPos g c.obj).distanceTo M g.refs.playerPosition ≤
              (worldPos g c'.obj).distanceTo M g.refs.playerPosition) ∧
          (∀ (j : Nat) (c' : Collectible), j < i → g.refs.collectibles[j]? = some c' →
            c'.taken = false → c'.deposited = false →
            (worldPos g c.obj).distanceTo M g.refs.playerPosition <
              (worldPos g c'.obj).distanceTo M g.refs.playerPosition)) := by
  have h := nearestCollectible_isNearest M g maxDist
  refine ⟨⟨fun hnone => ?_, fun hall => ?_⟩, fun i hi => ?_⟩
  · rw [hnone] at h
    intro j c hj ⟨ht, hd, hle⟩
    exact absurd hle (not_le.2 (h j c hj ht hd))
  · cases hres : nearestCollectible M g maxDist with
    | none => rfl
    | some i =>
      rw [hres] at h
      obtain ⟨c, hc, ht, hd, hle, _⟩ := h
      exact absurd ⟨ht, hd, hle⟩ (hall i c hc)
  · rw [hi] at h
    exact h

/-! ## Pickup and drop -/

theorem lookup_updateAt_same {l : List Collectible} {i : Nat} {c : Collectible}
    (f : Collectible → Collectible) (h : l[i]? = some c) :
    (updateAt l i f)[i]? = some (f c) := by
  induction l generalizing i with
  | nil => simp at h
  | cons a l ih =>
    cases i with
    | zero =>
      have : a = c := by simpa using h
      simp [updateAt, this]
    | succ i =>
      simp only [List.getElem?_cons_succ] at h
      simpa [updateAt] using ih h

theorem lookup_updateAt_ne (l : List Collectible) (f : Collectible → Collectible)
    {i j : Nat} (h : j ≠ i) : (updateAt l i f)[j]? = l[j]? := by
  induction l generalizing i j with
  | nil => simp [updateAt]
  | cons a l ih =>
    cases i with
    | zero =>
      cases j with
      | zero => exact absurd rfl h
      | succ j => simp [updateAt]
    | succ i =>
      cases j with
      | zero => simp [updateAt]
      | succ j =>
        have hne : j ≠ i := fun e => h (by rw [e])
        simpa [updateAt] using ih hne

theorem lookup_updateAt {l : List Collectible} {f : Collectible → Collectible} {i j : Nat}
    {c' : Collectible} (h : (updateAt l i f)[j]? = some c') :
    ∃ c : Collectible, l[j]? = some c ∧ ((j ≠ i ∧ c' = c) ∨ (j = i ∧ c' = f c)) := by
  by_cases hji : j = i
  · subst hji
    cases hl : l[j]? with
    | none =>
      have hlen : (updateAt l j f).length = l.length := by
        clear h hl
        induction l generalizing j with
        | nil => simp [updateAt]
        | cons a l ih =>
          cases j with
          | zero => simp [updateAt]
          | succ j => simpa [updateAt] using ih
      have h1 := lookup_lt h
      have h2 : l.length ≤ j := by
        by_contra hcon
        have hlt : j < l.length := not_le.1 hcon
        rw [List.getElem?_eq_getElem hlt] at hl
        simp at hl
      omega
    | some c =>
      rw [lookup_updateAt_same f hl] at h
      exact ⟨c, rfl, Or.inr ⟨rfl, by simpa [eq_comm] using h⟩⟩
  · rw [lookup_updateAt_ne l f hji] at h
    exact ⟨c', h, Or.inl ⟨hji, rfl⟩⟩

theorem tryDrop_success (M : JSMath) (rand1 rand2 : ℚ) (g : Game) (i : Nat) (c : Collectible)
    (cal : Caldero) (hl : g.state.loaded = true) (hc : g.state.carrying = some i)
    (hi : g.refs.collectibles[i]? = some c) (hcal : g.refs.caldero = some cal)
    (hd : g.refs.playerPosition.distanceTo M cal.worldPosition ≤ 2.2) :
    tryDrop M rand1 rand2 g =
      { g with
        state := { g.state with
          carrying := none
          collected := countKind c.kind g.state.collected }
        refs := { g.refs with
          collectibles := updateAt g.refs.collectibles i
            (fun c => { c with
              obj := { attach g .scene c.obj with
                position := ⟨cal.worldPosition.x + (rand1 - 0.5) * 0.4,
                  cal.box.max.y + 0.15, cal.worldPosition.z + (rand2 - 0.5) * 0.4⟩ }
              deposited := true }) }
        hintText := "Depositado " ++ c.kind.name ++ " en el caldero" } := by
  unfold tryDrop
  simp only [hl, hc, hcal, hi, Option.map_some']
  rw [if_neg (not_lt.2 hd)]

/-- C3: in a loaded state where the player carries collectible `c`, a deposit
target exists and the player is at distance at most 2.2 from it, `tryDrop`
sets `c.deposited`, adds exactly 1 to the counter matching `c.kind` and
nothing to the other, sets `state.carrying` to null, and leaves the other
collectibles as they were. -/
theorem tryDrop_deposits (M : JSMath) (rand1 rand2 : ℚ) (g : Game) (i : Nat)
    (c : Collectible) (cal : Caldero) (hl : g.state.loaded = true)
    (hc : g.state.carrying = some i) (hi : g.refs.collectibles[i]? = some c)
    (hcal : g.refs.caldero = some cal)
    (hd : g.refs.playerPosition.distanceTo M cal.worldPosition ≤ 2.2) :
    (∃ c' : Collectible, (tryDrop M rand1 rand2 g).refs.collectibles[i]? = some c' ∧
        c'.deposited = true ∧ c'.kind = c.kind ∧ c'.taken = c.taken) ∧
      (tryDrop M rand1 rand2 g).state.collected.cristales =
        g.state.collected.cristales + (if c.kind = Kind.cristal then 1 else 0) ∧
      (tryDrop M rand1 rand2 g).state.collected.setas =
        g.state.collected.setas + (if c.kind = Kind.seta then 1 else 0) ∧
      (tryDrop M rand1 rand2 g).state.carrying = none ∧
      (∀ j : Nat, j ≠ i →
        (tryDrop M rand1 rand2 g).refs.collectibles[j]? = g.refs.collectibles[j]?) := by
  rw [tryDrop_success M rand1 rand2 g i c cal hl hc hi hcal hd]
  refine ⟨⟨_, lookup_updateAt_same _ hi, rfl, rfl, rfl⟩, ?_, ?_, rfl, ?_⟩
  · cases hk : c.kind <;> simp [countKind]
  · cases hk : c.kind <;> simp [countKind]
  · intro j hj
    exact lookup_updateAt_ne _ _ hj

/-- C4: when the precondition of an interaction is unmet nothing but the hint
changes.  For `tryPickup` called while carrying, or with no collectible that is
neither taken nor deposited within 1.5, and for `tryDrop` called while not
carrying, without a deposit target, or farther than 2.2 from it, the objects
`state` and `refs` are the same after the call; in particular
`state.carrying`, the collectibles with their flags, and both counters. -/
theorem interaction_rejected (M : JSMath) (rand1 rand2 : ℚ) (g : Game) :
    ((g.state.carrying.isSome = true ∨
        ∀ (j : Nat) (c : Collectible), g.refs.collectibles[j]? = some c →
          ¬(c.taken = false ∧ c.deposited = false ∧
            (worldPos g c.obj).distanceTo M g.refs.playerPosition ≤ 1.5)) →
      (tryPickup M g).state = g.state ∧ (tryPickup M g).refs = g.refs ∧
        (tryPickup M g).state.carrying = g.state.carrying ∧
        (tryPickup M g).refs.collectibles = g.refs.collectibles ∧
        (tryPickup M g).state.collected = g.state.collected) ∧
      ((g.state.carrying = none ∨ g.refs.caldero = none ∨
          ∃ cal : Caldero, g.refs.caldero = some cal ∧
            2.2 < g.refs.playerPosition.distanceTo M cal.worldPosition) →
        (tryDrop M rand1 rand2 g).state = g.state ∧ (tryDrop M rand1 rand2 g).refs = g.refs ∧
          (tryDrop M rand1 rand2 g).state.carrying = g.state.carrying ∧
          (tryDrop M rand1 rand2 g).refs.collectibles = g.refs.collectibles ∧
          (tryDrop M rand1 rand2 g).state.collected = g.state.collected) := by
  constructor
  · intro h
    have key : (tryPickup M g).state = g.state ∧ (tryPickup M g).refs = g.refs := by
      unfold tryPickup
      by_cases hg : (!g.state.loaded || g.state.carrying.isSome) = true
      · rw [if_pos hg]
        exact ⟨rfl, rfl⟩
      · rw [if_neg hg]
        have hnone : nearestCollectible M g 1.5 = none := by
          rcases h with h | h
          · simp [h] at hg
          · cases hres : nearestCollectible M g 1.5 with
            | none => rfl
            | some i =>
              have hn := nearestCollectible_isNearest M g 1.5
              rw [hres] at hn
              obtain ⟨c, hc, ht, hd, hle, _⟩ := hn
              exact absurd ⟨ht, hd, hle⟩ (h i c hc)
        rw [hnone]
        exact ⟨rfl, rfl⟩
    obtain ⟨k1, k2⟩ := key
    exact ⟨k1, k2, by rw [k1], by rw [k2], by rw [k1]⟩
  · intro h
    have key : (tryDrop M rand1 rand2 g).state = g.state ∧
        (tryDrop M rand1 rand2 g).refs = g.refs := by
      unfold tryDrop
      cases hl : g.state.loaded with
      | false => exact ⟨rfl, rfl⟩
      | true =>
        cases hc : g.state.carrying with
        | none => exact ⟨rfl, rfl⟩
        | some i =>
          cases hcal : g.refs.caldero with
          | none => exact ⟨rfl, rfl⟩
          | some cal =>
            rcases h with h | h | ⟨cal', h1, h2⟩
            · rw [hc] at h
              simp at h
            · rw [hcal] at h
              simp at h
            · rw [hcal] at h1
              have hcc : cal = cal' := by simpa using h1
              subst hcc
              dsimp only
              rw [if_pos h2]
              exact ⟨rfl, rfl⟩
    obtain ⟨k1, k2⟩ := key
    exact ⟨k1, k2, by rw [k1], by rw [k2], by rw [k1]⟩

theorem sampleMath_sqrt_four : sampleMath.sqrt 4 = 2 := by
  have h : Nat.sqrt 4 = 2 := Nat.sqrt_eq' 2
  simp [sampleMath, h]

theorem sampleMath_sqrt_sixteen : sampleMath.sqrt 16 = 4 := by
  have h : Nat.sqrt 16 = 4 := Nat.sqrt_eq' 4
  simp [sampleMath, h]

theorem carryingScene_near_caldero :
    carryingScene.refs.playerPosition.distanceTo sampleMath sampleCaldero.worldPosition ≤ 2.2 := by
  have h : carryingScene.refs.playerPosition.distanceTo sampleMath sampleCaldero.worldPosition
      = sampleMath.sqrt 4 := by
    unfold Vector3.distanceTo
    congr 1
    norm_num [carryingScene, sampleScene, sampleCaldero, Vector3.distanceToSquared]
  rw [h, sampleMath_sqrt_four]
  norm_num

theorem tryDrop_deposits_witness :
    (∃ c' : Collectible,
        (tryDrop sampleMath (1 / 2) (1 / 2) carryingScene).refs.collectibles[0]? = some c' ∧
        c'.deposited = true ∧ c'.kind = carriedCrystal.kind ∧ c'.taken = carriedCrystal.taken) ∧
      (tryDrop sampleMath (1 / 2) (1 / 2) carryingScene).state.collected.cristales =
        carryingScene.state.collected.cristales +
          (if carriedCrystal.kind = Kind.cristal then 1 else 0) ∧
      (tryDrop sampleMath (1 / 2) (1 / 2) carryingScene).state.collected.setas =
        carryingScene.state.collected.setas +
          (if carriedCrystal.kind = Kind.seta then 1 else 0) ∧
      (tryDrop sampleMath (1 / 2) (1 / 2) carryingScene).state.carrying = none ∧
      (∀ j : Nat, j ≠ 0 →
        (tryDrop sampleMath (1 / 2) (1 / 2) carryingScene).refs.collectibles[j]? =
          carryingScene.refs.collectibles[j]?) :=
  tryDrop_deposits sampleMath (1 / 2) (1 / 2) carryingScene 0 carriedCrystal sampleCaldero
    rfl rfl rfl rfl carryingScene_near_caldero

theorem interaction_rejected_witness :
    ((tryPickup sampleMath carryingScene).state = carryingScene.state ∧
        (tryPickup sampleMath carryingScene).refs = carryingScene.refs ∧
        (tryPickup sampleMath carryingScene).state.carrying = carryingScene.state.carrying ∧
        (tryPickup sampleMath carryingScene).refs.collectibles =
          carryingScene.refs.collectibles ∧
        (tryPickup sampleMath carryingScene).state.collected =
          carryingScene.state.collected) ∧
      ((tryDrop sampleMath (1 / 2) (1 / 2) sampleScene).state = sampleScene.state ∧
        (tryDrop sampleMath (1 / 2) (1 / 2) sampleScene).refs = sampleScene.refs ∧
        (tryDrop sampleMath (1 / 2) (1 / 2) sampleScene).state.carrying =
          sampleScene.state.carrying ∧
        (tryDrop sampleMath (1 / 2) (1 / 2) sampleScene).refs.collectibles =
          sampleScene.refs.collectibles ∧
        (tryDrop sampleMath (1 / 2) (1 / 2) sampleScene).state.collected =
          sampleScene.state.collected) :=
  ⟨(interaction_rejected sampleMath (1 / 2) (1 / 2) carryingScene).1 (Or.inl rfl),
    (interaction_rejected sampleMath (1 / 2) (1 / 2) sampleScene).2 (Or.inl rfl)⟩

/-! ## Effects of the two interactions on flags and the carried reference -/

theorem tryPickup_effect (M : JSMath) (g : Game) :
    ((tryPickup M g).state.carrying = g.state.carrying ∧
        (tryPickup M g).refs.collectibles = g.refs.collectibles) ∨
      (∃ (i : Nat) (c : Collectible), g.state.loaded = true ∧ g.state.carrying = none ∧
        g.refs.collectibles[i]? = some c ∧ c.taken = false ∧ c.deposited = false ∧
        (tryPickup M g).state.carrying = some i ∧
        (tryPickup M g).refs.collectibles = updateAt g.refs.collectibles i
          (fun c => { c with obj := attach g .handAnchor c.obj, taken := true })) := by
  unfold tryPickup
  by_cases hg : (!g.state.loaded || g.state.carrying.isSome) = true
  · rw [if_pos hg]
    exact Or.inl ⟨rfl, rfl⟩
  · rw [if_neg hg]
    have hl : g.state.loaded = true := by
      cases h : g.state.loaded <;> simp [h] at hg ⊢
    have hc : g.state.carrying = none := by
      cases h : g.state.carrying <;> simp [h] at hg ⊢
    cases hres : nearestCollectible M g 1.5 with
    | none => exact Or.inl ⟨rfl, rfl⟩
    | some i =>
      have hn := nearestCollectible_isNearest M g 1.5
      rw [hres] at hn
      obtain ⟨c, hci, ht, hd, _⟩ := hn
      exact Or.inr ⟨i, c, hl, hc, hci, ht, hd, rfl, rfl⟩

theorem tryPickup_frame (M : JSMath) (g : Game) :
    (tryPickup M g).refs.caldero = g.refs.caldero ∧
      (tryPickup M g).state.loaded = g.state.loaded := by
  unfold tryPickup
  split_ifs
  · exact ⟨rfl, rfl⟩
  · split <;> exact ⟨rfl, rfl⟩

theorem tryDrop_effect (M : JSMath) (rand1 rand2 : ℚ) (g : Game) :
    ((tryDrop M rand1 rand2 g).state.carrying = g.state.carrying ∧
        (tryDrop M rand1 rand2 g).refs.collectibles = g.refs.collectibles) ∨
      (∃ (i : Nat) (f : Collectible → Collectible), g.state.carrying = some i ∧
        (∀ c : Collectible, (f c).deposited = true ∧ (f c).taken = c.taken) ∧
        (tryDrop M rand1 rand2 g).state.carrying = none ∧
        (tryDrop M rand1 rand2 g).refs.collectibles = updateAt g.refs.collectibles i f) := by
  unfold tryDrop
  cases hl : g.state.loaded with
  | false => exact Or.inl ⟨rfl, rfl⟩
  | true =>
    cases hc : g.state.carrying with
    | none => exact Or.inl ⟨hc, rfl⟩
    | some i =>
      cases hcal : g.refs.caldero with
      | none => exact Or.inl ⟨hc, rfl⟩
      | some cal =>
        dsimp only
        split_ifs with hd
        · exact Or.inl ⟨hc, rfl⟩
        · refine Or.inr ⟨i, _, rfl, ?_, rfl, rfl⟩
          intro c
          exact ⟨rfl, rfl⟩

theorem flagsConsistent_tryPickup (M : JSMath) (g : Game) (h : FlagsConsistent g) :
    FlagsConsistent (tryPickup M g) := by
  rcases tryPickup_effect M g with ⟨e1, e2⟩ | ⟨i, c, _, hc, hci, ht, hd, e1, e2⟩
  · unfold FlagsConsistent
    rw [e1, e2]
    exact h
  · obtain ⟨hflags, _⟩ := h
    unfold FlagsConsistent
    rw [e1, e2]
    constructor
    · intro j c' hj
      obtain ⟨c0, hc0, hcase⟩ := lookup_updateAt hj
      rcases hcase with ⟨hne, rfl⟩ | ⟨rfl, rfl⟩
      · obtain ⟨h1, h2⟩ := hflags j c' hc0
        refine ⟨h1, ?_⟩
        rw [hc] at h2
        constructor
        · intro h3
          exact absurd (h2.1 h3) (by simp)
        · intro h3
          exact absurd (Option.some.inj h3).symm hne
      · have hcc : c0 = c := by
          rw [hci] at hc0
          simpa [eq_comm] using hc0
        subst hcc
        simp [hd]
    · intro i' hi'
      have hii : i' = i := by simpa [eq_comm] using hi'
      subst hii
      exact ⟨_, lookup_updateAt_same _ hci⟩

theorem flagsConsistent_tryDrop (M : JSMath) (rand1 rand2 : ℚ) (g : Game)
    (h : FlagsConsistent g) : FlagsConsistent (tryDrop M rand1 rand2 g) := by
  rcases tryDrop_effect M rand1 rand2 g with ⟨e1, e2⟩ | ⟨i, f, hc, hf, e1, e2⟩
  · unfold FlagsConsistent
    rw [e1, e2]
    exact h
  · obtain ⟨hflags, _⟩ := h
    unfold FlagsConsistent
    rw [e1, e2]
    constructor
    · intro j c' hj
      obtain ⟨c0, hc0, hcase⟩ := lookup_updateAt hj
      obtain ⟨h1, h2⟩ := hflags j c0 hc0
      rw [hc] at h2
      rcases hcase with ⟨hne, rfl⟩ | ⟨rfl, rfl⟩
      · refine ⟨h1, ?_⟩
        constructor
        · intro h3
          exact absurd (Option.some.inj (h2.1 h3)).symm hne
        · intro h3
          simp at h3
      · have htk : c0.taken = true := (h2.2 rfl).1
        obtain ⟨hf1, hf2⟩ := hf c0
        simp [hf1, hf2, htk]
    · intro i' hi'
      simp at hi'

theorem flagsConsistent_step (M : JSMath) (g : Game) (a : Action) (h : FlagsConsistent g) :
    FlagsConsistent (step M g a) := by
  cases a with
  | pickup p => exact flagsConsistent_tryPickup M (placePlayer p g) h
  | drop p r1 r2 => exact flagsConsistent_tryDrop M r1 r2 (placePlayer p g) h

theorem flagsConsistent_run (M : JSMath) (acts : List Action) :
    ∀ g : Game, FlagsConsistent g → FlagsConsistent (run M g acts) := by
  induction acts with
  | nil =>
    intro g h
    exact h
  | cons a acts ih =>
    intro g h
    exact ih (step M g a) (flagsConsistent_step M g a h)

theorem flagsConsistent_postLoad (g : Game)
    (h0 : ∀ c ∈ g.refs.collectibles, c.taken = false ∧ c.deposited = false)
    (hc0 : g.state.carrying = none) : FlagsConsistent g := by
  constructor
  · intro j c hj
    have hmem : c ∈ g.refs.collectibles := List.getElem?_mem hj
    obtain ⟨ht, hd⟩ := h0 c hmem
    simp [ht, hd, hc0]
  · intro i hi
    rw [hc0] at hi
    simp at hi

/-- C6: in every state reached from a post-load state (no collectible taken
or deposited, nothing carried) by any sequence of `tryPickup` and `tryDrop`
calls at any player positions, every deposited collectible is taken, the
collectibles that are taken and not deposited are exactly the one
`state.carrying` refers to, and so at most one collectible is carried. -/
theorem reachable_flags_consistent (M : JSMath) (g0 : Game) (acts : List Action)
    (h0 : ∀ c ∈ g0.refs.collectibles, c.taken = false ∧ c.deposited = false)
    (hc0 : g0.state.carrying = none) :
    (∀ (j : Nat) (c : Collectible), (run M g0 acts).refs.collectibles[j]? = some c →
        (c.deposited = true → c.taken = true) ∧
        ((c.taken = true ∧ c.deposited = false) ↔ (run M g0 acts).state.carrying = some j)) ∧
      (∀ i : Nat, (run M g0 acts).state.carrying = some i →
        ∃ c : Collectible, (run M g0 acts).refs.collectibles[i]? = some c) ∧
      (∀ (j k : Nat) (cj ck : Collectible),
        (run M g0 acts).refs.collectibles[j]? = some cj →
        (run M g0 acts).refs.collectibles[k]? = some ck →
        cj.taken = true → cj.deposited = false → ck.taken = true → ck.deposited = false →
        j = k) := by
  obtain ⟨h1, h2⟩ := flagsConsistent_run M acts g0 (flagsConsistent_postLoad g0 h0 hc0)
  refine ⟨h1, h2, ?_⟩
  intro j k cj ck hj hk htj hdj htk hdk
  have e1 := ((h1 j cj hj).2).1 ⟨htj, hdj⟩
  have e2 := ((h1 k ck hk).2).1 ⟨htk, hdk⟩
  rw [e1] at e2
  exact Option.some.inj e2

theorem reachable_flags_consistent_witness :
    (∀ (j : Nat) (c : Collectible),
        (run sampleMath sampleScene
          [.pickup ⟨2, 0, 0⟩, .drop ⟨2, 0, 0⟩ (1 / 2) (1 / 2)]).refs.collectibles[j]? = some c →
        (c.deposited = true → c.taken = true) ∧
        ((c.taken = true ∧ c.deposited = false) ↔
          (run sampleMath sampleScene
            [.pickup ⟨2, 0, 0⟩, .drop ⟨2, 0, 0⟩ (1 / 2) (1 / 2)]).state.carrying = some j)) ∧
      (∀ i : Nat,
        (run sampleMath sampleScene
          [.pickup ⟨2, 0, 0⟩, .drop ⟨2, 0, 0⟩ (1 / 2) (1 / 2)]).state.carrying = some i →
        ∃ c : Collectible,
          (run sampleMath sampleScene
            [.pickup ⟨2, 0, 0⟩, .drop ⟨2, 0, 0⟩ (1 / 2) (1 / 2)]).refs.collectibles[i]? =
            some c) ∧
      (∀ (j k : Nat) (cj ck : Collectible),
        (run sampleMath sampleScene
          [.pickup ⟨2, 0, 0⟩, .drop ⟨2, 0, 0⟩ (1 / 2) (1 / 2)]).refs.collectibles[j]? =
          some cj →
        (run sampleMath sampleScene
          [.pickup ⟨2, 0, 0⟩, .drop ⟨2, 0, 0⟩ (1 / 2) (1 / 2)]).refs.collectibles[k]? =
          some ck →
        cj.taken = true → cj.deposited = false → ck.taken = true → ck.deposited = false →
        j = k) :=
  reachable_flags_consistent sampleMath sampleScene
    [.pickup ⟨2, 0, 0⟩, .drop ⟨2, 0, 0⟩ (1 / 2) (1 / 2)]
    (by simp [sampleScene]) rfl

/-! ## Round trip: pickup, then drop -/

theorem lookup_updateAt_forward {l : List Collectible} (f : Collectible → Collectible)
    (i : Nat) {j : Nat} {c : Collectible} (h : l[j]? = some c) :
    ∃ c' : Collectible, (updateAt l i f)[j]? = some c' ∧ (c' = c ∨ c' = f c) := by
  by_cases hji : j = i
  · subst hji
    exact ⟨f c, lookup_updateAt_same f h, Or.inr rfl⟩
  · exact ⟨c, by rw [lookup_updateAt_ne l f hji]; exact h, Or.inl rfl⟩

theorem deposited_step (M : JSMath) (g : Game) (a : Action) (i : Nat) (c : Collectible)
    (hi : g.refs.collectibles[i]? = some c) (hd : c.deposited = true) :
    ∃ c' : Collectible, (step M g a).refs.collectibles[i]? = some c' ∧
      c'.deposited = true := by
  cases a with
  | pickup p =>
    have hi' : (placePlayer p g).refs.collectibles[i]? = some c := hi
    rcases tryPickup_effect M (placePlayer p g) with ⟨_, e2⟩ | ⟨k, ck, _, _, _, _, _, _, e2⟩
    · exact ⟨c, by rw [step, e2]; exact hi', hd⟩
    · obtain ⟨c', h1, h2⟩ := lookup_updateAt_forward
        (fun c => { c with obj := attach (placePlayer p g) .handAnchor c.obj, taken := true })
        k hi'
      refine ⟨c', by rw [step, e2]; exact h1, ?_⟩
      rcases h2 with rfl | rfl
      · exact hd
      · exact hd
  | drop p r1 r2 =>
    have hi' : (placePlayer p g).refs.collectibles[i]? = some c := hi
    rcases tryDrop_effect M r1 r2 (placePlayer p g) with ⟨_, e2⟩ | ⟨k, f, _, hf, _, e2⟩
    · exact ⟨c, by rw [step, e2]; exact hi', hd⟩
    · obtain ⟨c', h1, h2⟩ := lookup_updateAt_forward f k hi'
      refine ⟨c', by rw [step, e2]; exact h1, ?_⟩
      rcases h2 with rfl | rfl
      · exact hd
      · exact (hf c).1

theorem deposited_run (M : JSMath) (acts : List Action) (i : Nat) :
    ∀ (g : Game) (c : Collectible), g.refs.collectibles[i]? = some c → c.deposited = true →
      ∃ c' : Collectible, (run M g acts).refs.collectibles[i]? = some c' ∧
        c'.deposited = true := by
  induction acts with
  | nil =>
    intro g c hi hd
    exact ⟨c, hi, hd⟩
  | cons a acts ih =>
    intro g c hi hd
    obtain ⟨c', h1, h2⟩ := deposited_step M g a i c hi hd
    exact ih (step M g a) c' h1 h2

theorem jitter_bound (r : ℚ) (h0 : 0 ≤ r) (h1 : r < 1) : |(r - 0.5) * 0.4| ≤ 0.2 := by
  rw [abs_le]
  constructor <;> norm_num <;> linarith

/-- C7: a collectible picked up by a successful `tryPickup` and then dropped
by a successful `tryDrop` (random draws in the half-open unit interval) ends
taken and deposited at height `box.max.y + 0.15` of the deposit target, within
0.2 of the world x and z of the target, and in no state reached afterwards by
`tryPickup` and `tryDrop` calls does `nearestCollectible` return it. -/
theorem pickup_then_drop (M : JSMath) (g : Game) (i : Nat) (p : Vector3) (cal : Caldero)
    (rand1 rand2 : ℚ) (hnc : g.state.carrying = none)
    (hp : (tryPickup M g).state.carrying = some i) (hcal : g.refs.caldero = some cal)
    (hd : p.distanceTo M cal.worldPosition ≤ 2.2)
    (hr1 : 0 ≤ rand1 ∧ rand1 < 1) (hr2 : 0 ≤ rand2 ∧ rand2 < 1) :
    ∃ c : Collectible,
      (tryDrop M rand1 rand2 (placePlayer p (tryPickup M g))).refs.collectibles[i]? = some c ∧
      c.taken = true ∧ c.deposited = true ∧
      (worldPos (tryDrop M rand1 rand2 (placePlayer p (tryPickup M g))) c.obj).y =
        cal.box.max.y + 0.15 ∧
      |(worldPos (tryDrop M rand1 rand2 (placePlayer p (tryPickup M g))) c.obj).x -
        cal.worldPosition.x| ≤ 0.2 ∧
      |(worldPos (tryDrop M rand1 rand2 (placePlayer p (tryPickup M g))) c.obj).z -
        cal.worldPosition.z| ≤ 0.2 ∧
      ∀ (acts : List Action) (maxDist : ℚ),
        nearestCollectible M
          (run M (tryDrop M rand1 rand2 (placePlayer p (tryPickup M g))) acts) maxDist ≠
          some i := by
  obtain ⟨hfc, hfl⟩ := tryPickup_frame M g
  rcases tryPickup_effect M g with ⟨e1, _⟩ | ⟨k, c0, hl, _, hk, _, _, e1, e2⟩
  · rw [e1, hnc] at hp
    simp at hp
  · have hki : k = i := by
      rw [e1] at hp
      exact Option.some.inj hp
    subst hki
    have hl1 : (placePlayer p (tryPickup M g)).state.loaded = true := by
      show (tryPickup M g).state.loaded = true
      rw [hfl, hl]
    have hc1 : (placePlayer p (tryPickup M g)).state.carrying = some k := e1
    have hi1 : (placePlayer p (tryPickup M g)).refs.collectibles[k]? =
        some { c0 with obj := attach g .handAnchor c0.obj, taken := true } := by
      show (tryPickup M g).refs.collectibles[k]? = _
      rw [e2]
      exact lookup_updateAt_same _ hk
    have hcal1 : (placePlayer p (tryPickup M g)).refs.caldero = some cal := by
      show (tryPickup M g).refs.caldero = some cal
      rw [hfc, hcal]
    have hd1 : (placePlayer p (tryPickup M g)).refs.playerPosition.distanceTo M
        cal.worldPosition ≤ 2.2 := hd
    have hdrop := tryDrop_success M rand1 rand2 (placePlayer p (tryPickup M g)) k _ cal
      hl1 hc1 hi1 hcal1 hd1
    have hlook := lookup_updateAt_same
      (fun c : Collectible => { c with
        obj := { attach (placePlayer p (tryPickup M g)) .scene c.obj with
          position := ⟨cal.worldPosition.x + (rand1 - 0.5) * 0.4,
            cal.box.max.y + 0.15, cal.worldPosition.z + (rand2 - 0.5) * 0.4⟩ }
        deposited := true }) hi1
    have hlookG : (tryDrop M rand1 rand2 (placePlayer p (tryPickup M g))).refs.collectibles[k]? =
        some ((fun c : Collectible => { c with
          obj := { attach (placePlayer p (tryPickup M g)) .scene c.obj with
            position := ⟨cal.worldPosition.x + (rand1 - 0.5) * 0.4,
              cal.box.max.y + 0.15, cal.worldPosition.z + (rand2 - 0.5) * 0.4⟩ }
          deposited := true })
          { c0 with obj := attach g .handAnchor c0.obj, taken := true }) := by
      rw [hdrop]
      exact hlook
    have hsub : ∀ a b : ℚ, a + b - a = b := fun a b => by ring
    refine ⟨_, hlookG, rfl, rfl, rfl, ?_, ?_, ?_⟩
    · simp only [worldPos, attach]
      rw [hsub]
      exact jitter_bound rand1 hr1.1 hr1.2
    · simp only [worldPos, attach]
      rw [hsub]
      exact jitter_bound rand2 hr2.1 hr2.2
    · intro acts maxDist hres
      obtain ⟨c', h1, h2⟩ := deposited_run M acts k
        (tryDrop M rand1 rand2 (placePlayer p (tryPickup M g))) _ hlookG rfl
      have hn := nearestCollectible_isNearest M
        (run M (tryDrop M rand1 rand2 (placePlayer p (tryPickup M g))) acts) maxDist
      rw [hres] at hn
      obtain ⟨c'', h3, _, h4, _⟩ := hn
      rw [h1] at h3
      have hcc : c' = c'' := by simpa using h3
      rw [hcc, h4] at h2
      simp at h2

theorem sampleScene_pickup_carrying :
    (tryPickup sampleMath sampleScene).state.carrying = some 0 := by
  have hn : nearestCollectible sampleMath sampleScene 1.5 = some 0 := by
    have e1 : ((3 : ℚ) - 2) * (3 - 2) + (0 - 0) * (0 - 0) + (0 - 0) * (0 - 0) = 1 := by norm_num
    have e2 : ((2 : ℚ) - 2) * (2 - 2) + (0 - 0) * (0 - 0) + (4 - 0) * (4 - 0) = 16 := by norm_num
    simp only [nearestCollectible, nearestLoop, sampleScene, worldPos, Vector3.distanceTo,
      Vector3.distanceToSquared, e1, e2, sampleMath_sqrt_one, sampleMath_sqrt_sixteen, belowBest]
    norm_num
  have hg : ¬((!sampleScene.state.loaded || sampleScene.state.carrying.isSome) = true) := by
    simp [sampleScene, initialState]
  unfold tryPickup
  rw [if_neg hg, hn]

theorem sample_near_caldero :
    (⟨2, 0, 0⟩ : Vector3).distanceTo sampleMath sampleCaldero.worldPosition ≤ 2.2 :=
  carryingScene_near_caldero

theorem pickup_then_drop_witness :
    ∃ c : Collectible,
      (tryDrop sampleMath (1 / 2) (3 / 4)
        (placePlayer ⟨2, 0, 0⟩ (tryPickup sampleMath sampleScene))).refs.collectibles[0]? =
        some c ∧
      c.taken = true ∧ c.deposited = true ∧
      (worldPos (tryDrop sampleMath (1 / 2) (3 / 4)
        (placePlayer ⟨2, 0, 0⟩ (tryPickup sampleMath sampleScene))) c.obj).y =
        sampleCaldero.box.max.y + 0.15 ∧
      |(worldPos (tryDrop sampleMath (1 / 2) (3 / 4)
        (placePlayer ⟨2, 0, 0⟩ (tryPickup sampleMath sampleScene))) c.obj).x -
        sampleCaldero.worldPosition.x| ≤ 0.2 ∧
      |(worldPos (tryDrop sampleMath (1 / 2) (3 / 4)
        (placePlayer ⟨2, 0, 0⟩ (tryPickup sampleMath sampleScene))) c.obj).z -
        sampleCaldero.worldPosition.z| ≤ 0.2 ∧
      ∀ (acts : List Action) (maxDist : ℚ),
        nearestCollectible sampleMath
          (run sampleMath (tryDrop sampleMath (1 / 2) (3 / 4)
            (placePlayer ⟨2, 0, 0⟩ (tryPickup sampleMath sampleScene))) acts) maxDist ≠
          some 0 :=
  pickup_then_drop sampleMath sampleScene 0 ⟨2, 0, 0⟩ sampleCaldero (1 / 2) (3 / 4) rfl
    sampleScene_pickup_carrying rfl sample_near_caldero
    ⟨by norm_num, by norm_num⟩ ⟨by norm_num, by norm_num⟩

end Alquimista
